import Mathlib

/-!
Verification of the DataTeamAnalytics schema-analysis and code-generation core.

This file is a shallow embedding, in Lean 4, of the pure core of the
repository: the schema analyzer (`src/db_analyzer.py`), the Entity Framework
code generator (`src/download/ef_code_generator.py`), the dependency-graph
builder (`src/download/db_schema_extractor.py`) and the UML diagram generator
(`src/uml_generator.py`).  Python dicts that preserve insertion order are
embedded as association lists, Python lists as Lean lists, Python strings as
Lean `String`, and fallible operations (list indexing, substring tests on
non-string values) as `Except`-returning functions.  Floating-point averages
are embedded as exact rationals; every value a theorem below evaluates is
exactly representable, so the embedding and the float computation agree there.
-/

namespace DTA

/-! ## String helpers (Python `in`, `split`, `lower`, `capitalize`)

Python's substring test `pat in s`, `s.split(sep)[0]` and ASCII case mapping,
over `String.data` character lists.  The repository only ever applies case
mapping to ASCII identifiers and SQL type names (the tokens produced by
`pascal_case` match `[a-zA-Z0-9]`, and every key of the SQL type map is ASCII),
so the ASCII case functions coincide with Python's `str.lower`/`str.upper` on
all inputs the claims touch. -/

def startsWithChars : List Char → List Char → Bool
  | _, [] => true
  | [], _ :: _ => false
  | c :: cs, p :: ps => c == p && startsWithChars cs ps

def hasSubChars (pat : List Char) : List Char → Bool
  | [] => startsWithChars [] pat
  | c :: rest => startsWithChars (c :: rest) pat || hasSubChars pat rest

/-- Python `pat in s` (substring containment; `"" in s` is `True`). -/
def strContains (s pat : String) : Bool := hasSubChars pat.data s.data

def takeBeforeAux (pat : List Char) : List Char → List Char
  | [] => []
  | c :: rest =>
    if startsWithChars (c :: rest) pat then [] else c :: takeBeforeAux pat rest

/-- Python `s.split(pat)[0]` for non-empty `pat`: the prefix of `s` before the
first occurrence of `pat`, the whole string when `pat` does not occur. -/
def takeBeforeFirst (s pat : String) : String := ⟨takeBeforeAux pat.data s.data⟩

def isLowerAlpha (c : Char) : Bool := 97 ≤ c.toNat && c.toNat ≤ 122
def isUpperAlpha (c : Char) : Bool := 65 ≤ c.toNat && c.toNat ≤ 90
def isDigitChar (c : Char) : Bool := 48 ≤ c.toNat && c.toNat ≤ 57

/-- The character class `[a-zA-Z0-9]` of the split pattern in `pascal_case`. -/
def isAsciiAlnum (c : Char) : Bool := isLowerAlpha c || isUpperAlpha c || isDigitChar c

/-- ASCII uppercasing, Python `str.upper` on the ASCII range. -/
def toUpperAscii (c : Char) : Char :=
  if isLowerAlpha c then Char.ofNat (c.toNat - 32) else c

/-- ASCII lowercasing, Python `str.lower` on the ASCII range. -/
def toLowerAscii (c : Char) : Char :=
  if isUpperAlpha c then Char.ofNat (c.toNat + 32) else c

/-- Python `s.lower()` (ASCII; see the section comment). -/
def pyLower (s : String) : String := ⟨s.data.map toLowerAscii⟩

/-! ## Identifier transformer (`ef_code_generator.py` lines 15-113) -/

/-- Python `re.split(r'[^a-zA-Z0-9]|_', name)`: every character outside
`[a-zA-Z0-9]` is a one-character separator (the `|_` alternative is subsumed,
`_` already matches `[^a-zA-Z0-9]`).  Adjacent separators yield empty words,
exactly as `re.split` does. -/
def splitTokens : List Char → List (List Char)
  | [] => [[]]
  | c :: rest =>
    let ts := splitTokens rest
    if isAsciiAlnum c then (c :: ts.headD []) :: ts.tail else [] :: ts

/-- Python `word.capitalize()`: first character uppercased, the rest
lowercased (the words it is applied to are ASCII alphanumeric). -/
def capitalizeTok : List Char → List Char
  | [] => []
  | c :: rest => toUpperAscii c :: rest.map toLowerAscii

/-- `pascal_case` (ef_code_generator.py lines 69-82):
`''.join(word.capitalize() for word in re.split(r'[^a-zA-Z0-9]|_', name) if word)`. -/
def pascal_case (name : String) : String :=
  ⟨(((splitTokens name.data).filter (fun t => !t.isEmpty)).map capitalizeTok).flatten⟩

/-- `camel_case` (lines 84-97): `pascal[0].lower() + pascal[1:]` when the
PascalCase form is non-empty, otherwise the empty result itself. -/
def camel_case (name : String) : String :=
  match (pascal_case name).data with
  | [] => pascal_case name
  | c :: rest => ⟨toLowerAscii c :: rest⟩

/-- `SQL_TO_CSHARP_TYPE_MAP` (lines 15-48), in source order. -/
def SQL_TO_CSHARP_TYPE_MAP : List (String × String) :=
  [("int", "int"), ("bigint", "long"), ("smallint", "short"), ("tinyint", "byte"),
   ("bit", "bool"), ("decimal", "decimal"), ("numeric", "decimal"), ("money", "decimal"),
   ("smallmoney", "decimal"), ("float", "double"), ("real", "float"),
   ("datetime", "DateTime"), ("datetime2", "DateTime"), ("smalldatetime", "DateTime"),
   ("date", "DateTime"), ("time", "TimeSpan"), ("datetimeoffset", "DateTimeOffset"),
   ("char", "string"), ("varchar", "string"), ("text", "string"), ("nchar", "string"),
   ("nvarchar", "string"), ("ntext", "string"), ("binary", "byte[]"),
   ("varbinary", "byte[]"), ("image", "byte[]"), ("uniqueidentifier", "Guid"),
   ("xml", "string"), ("geography", "Microsoft.SqlServer.Types.SqlGeography"),
   ("geometry", "Microsoft.SqlServer.Types.SqlGeometry"),
   ("hierarchyid", "Microsoft.SqlServer.Types.SqlHierarchyId"),
   ("sql_variant", "object")]

/-- Python `dict.get(k)` over an association list. -/
def dictFind (d : List (String × String)) (k : String) : Option String :=
  (d.find? (fun p => p.1 == k)).map Prod.snd

/-- `get_csharp_type` (lines 99-113): `SQL_TO_CSHARP_TYPE_MAP.get(
sql_type.split('(')[0].lower(), 'object')`. -/
def get_csharp_type (sql_type : String) : String :=
  let base_type := pyLower (takeBeforeFirst sql_type "(")
  (dictFind SQL_TO_CSHARP_TYPE_MAP base_type).getD "object"

/-! ## Schema model (shape produced by `db_schema_extractor.get_full_schema`)

SQLAlchemy's inspector always supplies `name`, `type` and `nullable` for a
column; `default` is the one optional key the generator tests with
`'default' in column` / `column.get('nullable', True)`.  `type` is embedded as
the string the generator reads via `str(column['type'])`. -/

structure Column where
  name : String
  type : String
  nullable : Bool
  default : Option String
deriving DecidableEq, Repr

structure ForeignKey where
  constrained_columns : List String
  referred_table : String
  referred_columns : List String
deriving DecidableEq, Repr

structure TableInfo where
  columns : List Column
  primary_keys : List String
  foreign_keys : List ForeignKey
deriving DecidableEq, Repr

structure Relationship where
  source_table : String
  source_columns : List String
  target_table : String
  target_columns : List String
  name : String
deriving DecidableEq, Repr

/-- The schema dict: dicts are association lists in insertion order with
unique keys, view and routine definitions are raw SQL text (`""` for a
missing/empty definition, which Python code tests by truthiness). -/
structure Schema where
  tables : List (String × TableInfo)
  views : List (String × String)
  stored_procedures : List (String × String)
  functions : List (String × String)
  relationships : List Relationship
deriving DecidableEq, Repr

/-- An analyzer recommendation dict (`type`/`severity`/`object`/`message`). -/
structure Finding where
  type : String
  severity : String
  object : String
  message : String
deriving DecidableEq, Repr

/-! ## Directed graph (the `networkx.DiGraph` uses)

`add_node` is a no-op on a present node, `add_edge` first inserts the missing
endpoints and ignores a duplicate edge; insertion order is kept.  Node and
edge attributes (`type=...` tags) are dropped: no analyzed behaviour reads
them back. -/

structure Digraph where
  nodes : List String
  edges : List (String × String)
deriving DecidableEq, Repr

def addNode (g : Digraph) (v : String) : Digraph :=
  if g.nodes.contains v then g else { g with nodes := g.nodes ++ [v] }

def addEdge (g : Digraph) (a b : String) : Digraph :=
  let g1 := addNode (addNode g a) b
  if g1.edges.contains (a, b) then g1 else { g1 with edges := g1.edges ++ [(a, b)] }

/-- The relationship graph both `analyze_dependency_cycles` (db_analyzer.py
lines 146-156) and `get_database_metrics` (lines 434-444) build: one node per
table, one edge per relationship (`add_edge` also inserts endpoints that are
not table names). -/
def relationshipGraph (tables : List (String × TableInfo)) (rels : List Relationship) :
    Digraph :=
  let g := tables.foldl (fun g p => addNode g p.1) ⟨[], []⟩
  rels.foldl (fun g r => addEdge g r.source_table r.target_table) g

/-! ## Simple-cycle enumeration (`networkx.simple_cycles`)

Johnson-style enumeration: every elementary circuit is reported exactly once,
rotated to start at its earliest node in the graph's node order, by a depth
first search from each start node through nodes at or after it in that order.
This enumerates the same set of cycles (up to rotation) as
`networkx.simple_cycles`; the fuel is the number of reachable-allowed nodes,
a bound on the length of any simple path. -/

def cyclesFrom (edges : List (String × String)) (allowed : List String)
    (start : String) (cur : String) (visited : List String) : Nat → List (List String)
  | 0 => []
  | Nat.succ fuel =>
    (edges.filter (fun e => e.1 == cur)).flatMap (fun e =>
      if e.2 == start then [visited.reverse]
      else if allowed.contains e.2 && !visited.contains e.2 then
        cyclesFrom edges allowed start e.2 (e.2 :: visited) fuel
      else [])

def simpleCycles (edges : List (String × String)) : List String → List (List String)
  | [] => []
  | s :: rest =>
    cyclesFrom edges (s :: rest) s s [s] (rest.length + 1) ++ simpleCycles edges rest

/-! ## Connected components (undirected, for `nx.number_connected_components`) -/

def compOf (comps : List (List String)) (a : String) : List String :=
  ((comps.find? (fun c => c.contains a)).getD [a])

def mergeComps (comps : List (List String)) (a b : String) : List (List String) :=
  let ca := compOf comps a
  let cb := compOf comps b
  if ca == cb then comps
  else (ca ++ cb) :: comps.filter (fun c => !(c == ca) && !(c == cb))

/-- Number of connected components of the graph viewed undirected. -/
def countComponents (g : Digraph) : Nat :=
  (g.edges.foldl (fun comps e => mergeComps comps e.1 e.2)
    (g.nodes.map (fun v => [v]))).length

/-! ## Schema analyzer (`db_analyzer.py`)

Each Python pass takes the whole schema dict and reads some of its fields; the
embeddings take exactly the fields read. -/

/-- Per-table body of `analyze_table_structure` (lines 25-77), check order as
in the source: missing primary key, non-nullable column without default,
composite key with more than 2 columns, a column named `id` outside the
primary key, unindexed foreign-key columns. -/
def tableRecs (tn : String) (ti : TableInfo) : List Finding :=
  (if ti.primary_keys.isEmpty then
    [{ type := "primary_key", severity := "high", object := tn,
       message := "Table '" ++ tn ++ "' does not have a primary key. Consider adding one for better data integrity and performance." }]
   else [])
  ++ ti.columns.flatMap (fun column =>
      if !column.nullable && column.default.isNone then
        [{ type := "column_default", severity := "medium",
           object := tn ++ "." ++ column.name,
           message := "Non-nullable column '" ++ column.name ++ "' in table '" ++ tn ++ "' has no default value. Consider adding a default value for easier data insertion." }]
      else [])
  ++ (if ti.primary_keys.length > 2 then
       [{ type := "composite_key", severity := "low", object := tn,
          message := "Table '" ++ tn ++ "' has a complex composite key with " ++ toString ti.primary_keys.length ++ " columns. Consider simplifying by using a surrogate key if appropriate." }]
      else [])
  ++ (if (ti.columns.map Column.name).contains "id" && !ti.primary_keys.contains "id" then
       [{ type := "naming_convention", severity := "low", object := tn ++ ".id",
          message := "Column 'id' in table '" ++ tn ++ "' is not a primary key. Consider renaming to avoid confusion." }]
      else [])
  ++ ti.foreign_keys.flatMap (fun fk =>
      fk.constrained_columns.flatMap (fun col =>
        if !ti.primary_keys.contains col then
          [{ type := "index", severity := "medium", object := tn ++ "." ++ col,
             message := "Consider adding an index on foreign key column '" ++ col ++ "' in table '" ++ tn ++ "' for better query performance." }]
        else []))

def analyze_table_structure (tables : List (String × TableInfo)) : List Finding :=
  tables.flatMap (fun p => tableRecs p.1 p.2)

/-- The junction-table half of `analyze_relationships` (lines 111-129): a
running count per ordered `(source, target)` pair, one finding for every
occurrence past the first. -/
def junctionRecs (counts : List ((String × String) × Nat)) :
    List Relationship → List Finding
  | [] => []
  | r :: rest =>
    let key := (r.source_table, r.target_table)
    let c := (((counts.find? (fun p => p.1 == key)).map Prod.snd).getD 0) + 1
    let counts' :=
      if counts.any (fun p => p.1 == key) then
        counts.map (fun p => if p.1 == key then (key, c) else p)
      else counts ++ [(key, c)]
    (if c > 1 then
      [{ type := "junction_table", severity := "medium",
         object := r.source_table ++ " - " ++ r.target_table,
         message := "Tables '" ++ r.source_table ++ "' and '" ++ r.target_table ++ "' have multiple relationships. Consider using a junction table for cleaner many-to-many relationship modeling." }]
     else []) ++ junctionRecs counts' rest

/-- `analyze_relationships` (lines 81-131).  The source iterates the Python
set `table_names - tables_with_relationships`, whose order is unspecified;
the embedding fixes table-insertion order (no claim depends on the order of
these equal-severity findings relative to each other). -/
def analyze_relationships (tables : List (String × TableInfo))
    (rels : List Relationship) : List Finding :=
  (tables.filter (fun t =>
      !(rels.any (fun r => r.source_table == t.1 || r.target_table == t.1)))).map
    (fun t =>
      { type := "isolated_table", severity := "medium", object := t.1,
        message := "Table '" ++ t.1 ++ "' has no relationships with other tables. This might indicate a design issue or an orphaned table." })
  ++ junctionRecs [] rels

/-- `analyze_dependency_cycles` (lines 133-172): one high finding per simple
cycle of the relationship graph, subject the cycle joined with " → ". -/
def analyze_dependency_cycles (tables : List (String × TableInfo))
    (rels : List Relationship) : List Finding :=
  let g := relationshipGraph tables rels
  (simpleCycles g.edges g.nodes).map (fun cyc =>
    let cycle_str := String.intercalate " → " cyc
    { type := "dependency_cycle", severity := "high", object := cycle_str,
      message := "Detected a dependency cycle: " ++ cycle_str ++ ". This may cause issues with referential integrity and data insertion. Consider redesigning the schema to eliminate this cycle." })

/-- Per-procedure body of `analyze_stored_procedures` (lines 190-224). -/
def procRecs (n d : String) : List Finding :=
  (if strContains d "EXEC(" || strContains d "EXECUTE(" || strContains d "sp_executesql" then
    [{ type := "security", severity := "high", object := n,
       message := "Stored procedure '" ++ n ++ "' uses dynamic SQL execution, which could be vulnerable to SQL injection. Consider using parameterized queries." }]
   else [])
  ++ (if strContains d "SELECT *" then
       [{ type := "performance", severity := "medium", object := n,
          message := "Stored procedure '" ++ n ++ "' uses 'SELECT *', which may retrieve unnecessary columns. Consider specifying only needed columns." }]
      else [])
  ++ (if strContains d "DECLARE CURSOR" || strContains d "CURSOR FOR" then
       [{ type := "performance", severity := "medium", object := n,
          message := "Stored procedure '" ++ n ++ "' uses cursors, which can be inefficient. Consider using set-based operations instead." }]
      else [])
  ++ (if strContains d "BEGIN TRANSACTION" && (!strContains d "COMMIT" || !strContains d "ROLLBACK") then
       [{ type := "reliability", severity := "high", object := n,
          message := "Stored procedure '" ++ n ++ "' begins a transaction but may not properly commit or rollback in all code paths. This could lead to open transactions or deadlocks." }]
      else [])

def analyze_stored_procedures (procs : List (String × String)) : List Finding :=
  procs.flatMap (fun p => if p.2 == "" then [] else procRecs p.1 p.2)

/-- Per-function body of `analyze_functions` (lines 244-269). -/
def funcRecs (n d : String) : List Finding :=
  (if strContains d "SELECT *" then
    [{ type := "performance", severity := "medium", object := n,
       message := "Function '" ++ n ++ "' uses 'SELECT *', which may retrieve unnecessary columns. Consider specifying only needed columns." }]
   else [])
  ++ (if strContains d "DECLARE CURSOR" || strContains d "CURSOR FOR" then
       [{ type := "performance", severity := "medium", object := n,
          message := "Function '" ++ n ++ "' uses cursors, which can be inefficient. Consider using set-based operations instead." }]
      else [])
  ++ (if strContains d "INSERT" || strContains d "UPDATE" || strContains d "DELETE" then
       [{ type := "design", severity := "high", object := n,
          message := "Function '" ++ n ++ "' appears to modify data. This is generally considered an anti-pattern. Consider using a stored procedure instead." }]
      else [])

def analyze_functions (funcs : List (String × String)) : List Finding :=
  funcs.flatMap (fun p => if p.2 == "" then [] else funcRecs p.1 p.2)

/-- Per-view body of `analyze_views` (lines 289-305).  Note the second check:
`"SELECT " in view_def and "(" in view_def and "SELECT" in
view_def.split("FROM")[0]` — the parenthesis test ranges over the WHOLE
definition, only the second `SELECT` test is restricted to the prefix before
the first `FROM`. -/
def viewRecs (n d : String) : List Finding :=
  (if strContains d "SELECT *" then
    [{ type := "performance", severity := "medium", object := n,
       message := "View '" ++ n ++ "' uses 'SELECT *', which may retrieve unnecessary columns. Consider specifying only needed columns." }]
   else [])
  ++ (if strContains d "SELECT " && strContains d "(" && strContains (takeBeforeFirst d "FROM") "SELECT" then
       [{ type := "performance", severity := "low", object := n,
          message := "View '" ++ n ++ "' may contain subqueries in the SELECT clause, which can impact performance. Consider restructuring if possible." }]
      else [])

def analyze_views (views : List (String × String)) : List Finding :=
  views.flatMap (fun p => if p.2 == "" then [] else viewRecs p.1 p.2)

/-- `severity_order = {'high': 0, 'medium': 1, 'low': 2}` (line 340).  The
Python lookup raises `KeyError` on any other severity; every finding any pass
produces carries one of the three literals (proved below), so the default
branch is unreachable on analyzer output. -/
def severity_order (sev : String) : Nat :=
  if sev == "high" then 0 else if sev == "medium" then 1 else if sev == "low" then 2 else 3

/-- One step of a stable insertion sort by `severity_order`: the new element
goes after every element whose key is less than or equal to its own, which is
exactly the observable behaviour of Python's stable `list.sort(key=...)`. -/
def insSorted (x : Finding) : List Finding → List Finding
  | [] => [x]
  | y :: ys =>
    if severity_order y.severity ≤ severity_order x.severity then y :: insSorted x ys
    else x :: y :: ys

/-- `all_recommendations.sort(key=lambda x: severity_order[x['severity']])`
(line 341): a stable sort by severity rank. -/
def sortBySeverity (l : List Finding) : List Finding :=
  l.foldl (fun acc x => insSorted x acc) []

/-- The concatenation of the six passes in source order (lines 319-337):
structural, relationship, cycle, stored procedure, function, view. -/
def allFindings (s : Schema) : List Finding :=
  analyze_table_structure s.tables
  ++ analyze_relationships s.tables s.relationships
  ++ analyze_dependency_cycles s.tables s.relationships
  ++ analyze_stored_procedures s.stored_procedures
  ++ analyze_functions s.functions
  ++ analyze_views s.views

/-- `analyze_database` (lines 309-343). -/
def analyze_database (s : Schema) : List Finding :=
  sortBySeverity (allFindings s)

/-! ## Database metrics (`get_database_metrics`, lines 390-466)

The float divisions are embedded as exact rationals (see the file comment);
`nx.density` of a directed graph is `m / (n*(n-1))`, `0` when `m = 0` or
`n <= 1`.  The `try` block cannot fail in the embedding (no division by zero
is ever attempted), so the `except` fallback to zeros is not modelled. -/

structure Metrics where
  table_count : Nat
  view_count : Nat
  stored_procedure_count : Nat
  function_count : Nat
  relationship_count : Nat
  total_columns : Nat
  primary_key_count : Nat
  foreign_key_count : Nat
  nullable_column_count : Nat
  avg_in_degree : ℚ
  avg_out_degree : ℚ
  density : ℚ
  connected_components : Nat
deriving DecidableEq, Repr

def get_database_metrics (s : Schema) : Metrics :=
  let g := relationshipGraph s.tables s.relationships
  let n := g.nodes.length
  let inSum := (g.nodes.map (fun v => (g.edges.filter (fun e => e.2 == v)).length)).sum
  let outSum := (g.nodes.map (fun v => (g.edges.filter (fun e => e.1 == v)).length)).sum
  { table_count := s.tables.length
    view_count := s.views.length
    stored_procedure_count := s.stored_procedures.length
    function_count := s.functions.length
    relationship_count := s.relationships.length
    total_columns := (s.tables.map (fun t => t.2.columns.length)).sum
    primary_key_count := (s.tables.map (fun t => t.2.primary_keys.length)).sum
    foreign_key_count :=
      (s.tables.map (fun t => (t.2.foreign_keys.map (fun fk => fk.constrained_columns.length)).sum)).sum
    nullable_column_count :=
      (s.tables.map (fun t => (t.2.columns.filter Column.nullable).length)).sum
    avg_in_degree := (inSum : ℚ) / ((if n = 0 then 1 else n : Nat) : ℚ)
    avg_out_degree := (outSum : ℚ) / ((if n = 0 then 1 else n : Nat) : ℚ)
    density :=
      if g.edges.length = 0 ∨ n ≤ 1 then 0
      else (g.edges.length : ℚ) / ((n : ℚ) * ((n : ℚ) - 1))
    connected_components := if 0 < n then countComponents g else 0 }

/-! ## Dynamically-typed view of the analyzer

Python stores view/routine definitions untyped; `analyze_database` applies
substring tests (`"EXEC(" in proc_def`) to them after a truthiness guard
(`if not proc_def: continue`).  `DefVal` embeds the three relevant cases of
such a value: `None`, a string, and a truthy non-string (any malformed
definition object), on which Python's `in` raises `TypeError`.  The
`Except`-valued passes embed that exception. -/

inductive DefVal where
  | null
  | str (s : String)
  | nonStr
deriving DecidableEq, Repr

/-- The schema dict with untyped definition values for views and routines. -/
structure SchemaD where
  tables : List (String × TableInfo)
  views : List (String × DefVal)
  stored_procedures : List (String × DefVal)
  functions : List (String × DefVal)
  relationships : List Relationship
deriving DecidableEq, Repr

/-- `analyze_stored_procedures` over untyped definitions: `None` and `""` are
skipped by the truthiness guard, a string runs the per-procedure checks, and
a truthy non-string raises `TypeError` at the first substring test. -/
def analyze_stored_proceduresD : List (String × DefVal) → Except String (List Finding)
  | [] => .ok []
  | (n, .null) :: rest => let _ := n; analyze_stored_proceduresD rest
  | (n, .str s) :: rest =>
    if s == "" then analyze_stored_proceduresD rest
    else match analyze_stored_proceduresD rest with
      | .error e => .error e
      | .ok tl => .ok (procRecs n s ++ tl)
  | (_, .nonStr) :: _ => .error "TypeError"

/-- `analyze_functions` over untyped definitions. -/
def analyze_functionsD : List (String × DefVal) → Except String (List Finding)
  | [] => .ok []
  | (n, .null) :: rest => let _ := n; analyze_functionsD rest
  | (n, .str s) :: rest =>
    if s == "" then analyze_functionsD rest
    else match analyze_functionsD rest with
      | .error e => .error e
      | .ok tl => .ok (funcRecs n s ++ tl)
  | (_, .nonStr) :: _ => .error "TypeError"

/-- `analyze_views` over untyped definitions. -/
def analyze_viewsD : List (String × DefVal) → Except String (List Finding)
  | [] => .ok []
  | (n, .null) :: rest => let _ := n; analyze_viewsD rest
  | (n, .str s) :: rest =>
    if s == "" then analyze_viewsD rest
    else match analyze_viewsD rest with
      | .error e => .error e
      | .ok tl => .ok (viewRecs n s ++ tl)
  | (_, .nonStr) :: _ => .error "TypeError"

/-- `analyze_database` over a schema with untyped definition values: the six
passes run in source order with no exception handling around them, so the
first raising pass aborts the remaining passes and the exception reaches the
caller (there is no `try`/`except` in `analyze_database`, lines 309-343). -/
def analyze_databaseD (s : SchemaD) : Except String (List Finding) :=
  match analyze_stored_proceduresD s.stored_procedures with
  | .error e => .error e
  | .ok p4 =>
    match analyze_functionsD s.functions with
    | .error e => .error e
    | .ok p5 =>
      match analyze_viewsD s.views with
      | .error e => .error e
      | .ok p6 =>
        .ok (sortBySeverity
          (analyze_table_structure s.tables
            ++ analyze_relationships s.tables s.relationships
            ++ analyze_dependency_cycles s.tables s.relationships
            ++ p4 ++ p5 ++ p6))

/-! ## Dependency graph builder (`db_schema_extractor.py` lines 228-278) -/

/-- The substring heuristic for a definition referencing a table: the
space-padded or bracket-quoted table name occurs in the text. -/
def mentionsTable (d tn : String) : Bool :=
  strContains d (" " ++ tn ++ " ") || strContains d ("[" ++ tn ++ "]")

/-- `create_dependency_graph`: tables and views become nodes unconditionally;
relationships become edges (inserting missing endpoints); each routine with a
truthy definition is added as a node together with heuristic edges to the
tables its text mentions — a routine with an empty (falsy) definition is NOT
added, its whole block sits under `if sp_def:` / `if func_def:`. -/
def create_dependency_graph (s : Schema) : Digraph :=
  let g := s.tables.foldl (fun g p => addNode g p.1) ⟨[], []⟩
  let g := s.views.foldl (fun g p => addNode g p.1) g
  let g := s.relationships.foldl (fun g r => addEdge g r.source_table r.target_table) g
  let g := s.views.foldl (fun g p =>
    if p.2 == "" then g
    else s.tables.foldl (fun g t => if mentionsTable p.2 t.1 then addEdge g p.1 t.1 else g) g) g
  let g := s.stored_procedures.foldl (fun g p =>
    if p.2 == "" then g
    else s.tables.foldl (fun g t => if mentionsTable p.2 t.1 then addEdge g p.1 t.1 else g)
      (addNode g p.1)) g
  s.functions.foldl (fun g p =>
    if p.2 == "" then g
    else s.tables.foldl (fun g t => if mentionsTable p.2 t.1 then addEdge g p.1 t.1 else g)
      (addNode g p.1)) g

/-! ## Entity Framework code generator (`ef_code_generator.py` lines 115-878)

String templates are transcribed byte for byte from the source (including
trailing blanks inside the literals); a literal `\x7b` / `\x7d` is an escaped
brace.  Python dict insertion (`d[k] = v`, insertion order kept, assignment to
a present key updates in place) is `dictInsert`. -/

def dictInsert (d : List (String × String)) (k v : String) : List (String × String) :=
  if d.any (fun p => p.1 == k) then d.map (fun p => if p.1 == k then (k, v) else p)
  else d ++ [(k, v)]

/-- `re.search(r'\((\d+)\)', s)`: the digits of the leftmost occurrence of a
parenthesis, one or more ASCII digits, and a closing parenthesis. -/
def findParenNumAux : List Char → Option (List Char)
  | [] => Option.none
  | '(' :: rest =>
    let ds := rest.takeWhile isDigitChar
    (match ds, rest.drop ds.length with
     | _ :: _, ')' :: _ => Option.some ds
     | _, _ => findParenNumAux rest)
  | _ :: rest => findParenNumAux rest

def findParenNum (s : String) : Option String :=
  (findParenNumAux s.data).map (fun l => ⟨l⟩)

/-- Python `list.index` (the uses are guarded by membership). -/
def listIndexOf : List String → String → Nat
  | [], _ => 0
  | y :: ys, x => if y == x then 0 else listIndexOf ys x + 1

/-- `generate_entity_class` (lines 115-205). -/
def generate_entity_class (table_name : String) (columns : List Column)
    (primary_keys : List String) (foreign_keys : List ForeignKey) : String :=
  let class_name := pascal_case table_name
  let header := "using System;
using System.Collections.Generic;
using System.ComponentModel.DataAnnotations;
using System.ComponentModel.DataAnnotations.Schema;

namespace YourNamespace.Models
\x7b
    [Table(\"" ++ table_name ++ "\")]
    public class " ++ class_name ++ "
    \x7b
"
  let afterCols := columns.foldl (fun acc column =>
    let col_name := column.name
    let col_type0 := get_csharp_type column.type
    let col_type :=
      if column.nullable && !(["string", "byte[]", "object"].contains col_type0) then
        col_type0 ++ "?"
      else col_type0
    let prop_name := pascal_case col_name
    let attributes :=
      (if primary_keys.contains col_name then
        ["[Key]"]
        ++ (if primary_keys.length > 1 then
             ["[Column(Order = " ++ toString (listIndexOf primary_keys col_name) ++ ")]"]
            else [])
       else [])
      ++ (if col_name != prop_name && col_name != camel_case prop_name then
           ["[Column(\"" ++ col_name ++ "\")]"]
          else [])
      ++ (if !column.nullable && !(["byte[]", "object"].contains col_type) then
           ["[Required]"]
          else [])
      ++ (if strContains (pyLower column.type) "varchar"
            || strContains (pyLower column.type) "nvarchar" then
           match findParenNum column.type with
           | Option.some len => if len != "max" then ["[StringLength(" ++ len ++ ")]"] else []
           | Option.none => []
          else [])
    acc ++ (attributes.foldl (fun a attr => a ++ "        " ++ attr ++ "\n") "")
      ++ "        public " ++ col_type ++ " " ++ prop_name ++ " \x7b get; set; \x7d\n\n") header
  let afterFks := foreign_keys.foldl (fun acc fk =>
    let related_class := pascal_case fk.referred_table
    acc ++ "        public virtual " ++ related_class ++ " " ++ related_class
      ++ " \x7b get; set; \x7d\n\n") afterCols
  afterFks ++ "    \x7d\n\x7d\n"

/-- `generate_dbcontext_class` (lines 207-265); the caller in
`generate_ef_code` leaves `context_name` at its default `"YourDbContext"`.
A relationship whose source or target column list is empty (or whose first
column transforms to the empty identifier) is skipped by the
`if not source_prop or not target_prop: continue` guard. -/
def generate_dbcontext_class (s : Schema) (context_name : String) : String :=
  let header := "using Microsoft.EntityFrameworkCore;
using YourNamespace.Models;

namespace YourNamespace.Data
\x7b
    public class " ++ context_name ++ " : DbContext
    \x7b
        public " ++ context_name ++ "(DbContextOptions<" ++ context_name ++ "> options)
            : base(options)
        \x7b
        \x7d

"
  let afterSets := s.tables.foldl (fun acc p =>
    let class_name := pascal_case p.1
    let dbset_name := pascal_case p.1 ++ "s"
    acc ++ "        public DbSet<" ++ class_name ++ "> " ++ dbset_name
      ++ " \x7b get; set; \x7d\n") header
  let afterHead := afterSets
    ++ "\n        protected override void OnModelCreating(ModelBuilder modelBuilder)\n        \x7b\n"
  let afterRels := s.relationships.foldl (fun acc rel =>
    let source_class := pascal_case rel.source_table
    let source_prop := match rel.source_columns with
      | [] => ""
      | c :: _ => pascal_case c
    let target_class := pascal_case rel.target_table
    let target_prop := match rel.target_columns with
      | [] => ""
      | c :: _ => pascal_case c
    if source_prop == "" || target_prop == "" then acc
    else acc ++ "            modelBuilder.Entity<" ++ source_class ++ ">()
                .HasOne(s => s." ++ target_class ++ ")
                .WithMany()
                .HasForeignKey(s => s." ++ source_prop ++ ");

") afterHead
  afterRels ++ "        \x7d\n    \x7d\n\x7d\n"

/-- `generate_entity_configurations` (lines 267-362); the column model always
carries a `type` (see the schema model comment), so the `if 'type' in column`
guard always takes its then-branch. -/
def generate_entity_configurations (s : Schema) : List (String × String) :=
  s.tables.foldl (fun configs p =>
    let table_name := p.1
    let table_info := p.2
    let class_name := pascal_case table_name
    let config_class_name := class_name ++ "Configuration"
    let header := "using Microsoft.EntityFrameworkCore;
using Microsoft.EntityFrameworkCore.Metadata.Builders;
using YourNamespace.Models;

namespace YourNamespace.Data.Configurations
\x7b
    public class " ++ config_class_name ++ " : IEntityTypeConfiguration<" ++ class_name ++ ">
    \x7b
        public void Configure(EntityTypeBuilder<" ++ class_name ++ "> builder)
        \x7b
            builder.ToTable(\"" ++ table_name ++ "\");

"
    let afterPk := header ++
      (match table_info.primary_keys with
       | [] => ""
       | [pk] => "            builder.HasKey(e => e." ++ pascal_case pk ++ ");\n\n"
       | pks =>
         let pk_props := String.intercalate ", " (pks.map (fun pk => "e." ++ pascal_case pk))
         "            builder.HasKey(e => new \x7b " ++ pk_props ++ " \x7d);\n\n")
    let afterCols := table_info.columns.foldl (fun acc column =>
      let col_name := column.name
      let prop_name := pascal_case col_name
      acc ++ "            builder.Property(e => e." ++ prop_name ++ ")\n"
        ++ "                .HasColumnName(\"" ++ col_name ++ "\")"
        ++ "\n                .HasColumnType(\"" ++ column.type ++ "\")"
        ++ (if !column.nullable then "\n                .IsRequired()" else "")
        ++ (match column.default with
            | Option.some default_value => "\n                .HasDefaultValue(" ++ default_value ++ ")"
            | Option.none => "")
        ++ ";\n\n") afterPk
    let afterFks := table_info.foreign_keys.foldl (fun acc fk =>
      let ref_class := pascal_case fk.referred_table
      let source_cols := fk.constrained_columns.map pascal_case
      let target_cols := fk.referred_columns.map pascal_case
      if source_cols.isEmpty || target_cols.isEmpty then acc
      else
        acc ++ "            builder.HasOne(e => e." ++ ref_class ++ ")\n"
          ++ "                .WithMany()\n"
          ++ (match source_cols with
              | [sc] => "                .HasForeignKey(e => e." ++ sc ++ ")"
              | scs =>
                let fk_props := String.intercalate ", " (scs.map (fun col => "e." ++ col))
                "                .HasForeignKey(e => new \x7b " ++ fk_props ++ " \x7d)")
          ++ ";\n\n") afterCols
    dictInsert configs config_class_name (afterFks ++ "        \x7d\n    \x7d\n\x7d\n")) []

/-- `generate_startup_code` (lines 364-386): a fixed snippet. -/
def generate_startup_code : String :=
  "// Add these sections to your Startup.cs or Program.cs file

// Service registration
services.AddDbContext<YourDbContext>(options =>
    options.UseSqlServer(Configuration.GetConnectionString(\"DefaultConnection\")));

// Example appsettings.json configuration
/*
\x7b
  \"ConnectionStrings\": \x7b
    \"DefaultConnection\": \"Server=yourserver;Database=yourdatabase;Trusted_Connection=True;MultipleActiveResultSets=true\"
  \x7d
\x7d
*/
"

/-- `generate_migrations_commands` (lines 388-407): a fixed snippet. -/
def generate_migrations_commands : String :=
  "// Entity Framework Core migrations commands

// Install required packages
dotnet add package Microsoft.EntityFrameworkCore.SqlServer
dotnet add package Microsoft.EntityFrameworkCore.Tools

// Create initial migration
dotnet ef migrations add InitialCreate

// Apply migrations to the database
dotnet ef database update
"

/-- The fixed `IRepository.cs` text (lines 422-449). -/
def irepositoryText : String :=
  "using System;
using System.Collections.Generic;
using System.Linq;
using System.Linq.Expressions;
using System.Threading.Tasks;

namespace YourNamespace.Repositories
\x7b
    public interface IRepository<T> where T : class
    \x7b
        // Synchronous methods
        IQueryable<T> GetAll();
        IQueryable<T> Find(Expression<Func<T, bool>> predicate);
        T GetById(object id);
        void Add(T entity);
        void AddRange(IEnumerable<T> entities);
        void Update(T entity);
        void Remove(T entity);
        void RemoveRange(IEnumerable<T> entities);
        
        // Asynchronous methods
        Task<List<T>> GetAllAsync();
        Task<T> GetByIdAsync(object id);
        Task AddAsync(T entity);
        Task AddRangeAsync(IEnumerable<T> entities);
    \x7d
\x7d
"

/-- The fixed `Repository.cs` text (lines 452-539). -/
def repositoryText : String :=
  "using Microsoft.EntityFrameworkCore;
using System;
using System.Collections.Generic;
using System.Linq;
using System.Linq.Expressions;
using System.Threading.Tasks;
using YourNamespace.Data;

namespace YourNamespace.Repositories
\x7b
    public class Repository<T> : IRepository<T> where T : class
    \x7b
        protected readonly YourDbContext _context;
        protected readonly DbSet<T> _dbSet;

        public Repository(YourDbContext context)
        \x7b
            _context = context;
            _dbSet = context.Set<T>();
        \x7d

        public virtual IQueryable<T> GetAll()
        \x7b
            return _dbSet;
        \x7d

        public virtual IQueryable<T> Find(Expression<Func<T, bool>> predicate)
        \x7b
            return _dbSet.Where(predicate);
        \x7d

        public virtual T GetById(object id)
        \x7b
            return _dbSet.Find(id);
        \x7d

        public virtual void Add(T entity)
        \x7b
            _dbSet.Add(entity);
        \x7d

        public virtual void AddRange(IEnumerable<T> entities)
        \x7b
            _dbSet.AddRange(entities);
        \x7d

        public virtual void Update(T entity)
        \x7b
            _dbSet.Attach(entity);
            _context.Entry(entity).State = EntityState.Modified;
        \x7d

        public virtual void Remove(T entity)
        \x7b
            if (_context.Entry(entity).State == EntityState.Detached)
            \x7b
                _dbSet.Attach(entity);
            \x7d
            _dbSet.Remove(entity);
        \x7d

        public virtual void RemoveRange(IEnumerable<T> entities)
        \x7b
            _dbSet.RemoveRange(entities);
        \x7d

        public virtual async Task<List<T>> GetAllAsync()
        \x7b
            return await _dbSet.ToListAsync();
        \x7d

        public virtual async Task<T> GetByIdAsync(object id)
        \x7b
            return await _dbSet.FindAsync(id);
        \x7d

        public virtual async Task AddAsync(T entity)
        \x7b
            await _dbSet.AddAsync(entity);
        \x7d

        public virtual async Task AddRangeAsync(IEnumerable<T> entities)
        \x7b
            await _dbSet.AddRangeAsync(entities);
        \x7d
    \x7d
\x7d
"

/-- `generate_repository_pattern` (lines 409-650): two fixed files and the
two unit-of-work files whose bodies interleave fixed chunks with one line or
block per table. -/
def generate_repository_pattern (s : Schema) : List (String × String) :=
  let iuow := "using System;
using System.Threading.Tasks;

namespace YourNamespace.Repositories
\x7b
    public interface IUnitOfWork : IDisposable
    \x7b
        // Add specific repositories here
"
    ++ (s.tables.foldl (fun acc p =>
        let class_name := pascal_case p.1
        acc ++ "        IRepository<" ++ class_name ++ "> " ++ class_name
          ++ "Repository \x7b get; \x7d\n") "")
    ++ "
        // Save changes methods
        int Complete();
        Task<int> CompleteAsync();
    \x7d
\x7d
"
  let uow := "using System;
using System.Threading.Tasks;
using YourNamespace.Data;
using YourNamespace.Models;

namespace YourNamespace.Repositories
\x7b
    public class UnitOfWork : IUnitOfWork
    \x7b
        private readonly YourDbContext _context;
        private bool _disposed = false;

"
    ++ (s.tables.foldl (fun acc p =>
        let class_name := pascal_case p.1
        let field_name := "_" ++ camel_case p.1 ++ "Repository"
        acc ++ "        private IRepository<" ++ class_name ++ "> " ++ field_name ++ ";\n") "")
    ++ "
        public UnitOfWork(YourDbContext context)
        \x7b
            _context = context;
        \x7d

"
    ++ (s.tables.foldl (fun acc p =>
        let class_name := pascal_case p.1
        let field_name := "_" ++ camel_case p.1 ++ "Repository"
        let prop_name := class_name ++ "Repository"
        acc ++ "        public IRepository<" ++ class_name ++ "> " ++ prop_name ++ "
        \x7b
            get
            \x7b
                if (" ++ field_name ++ " == null)
                \x7b
                    " ++ field_name ++ " = new Repository<" ++ class_name ++ ">(_context);
                \x7d
                return " ++ field_name ++ ";
            \x7d
        \x7d

") "")
    ++ "        public int Complete()
        \x7b
            return _context.SaveChanges();
        \x7d

        public async Task<int> CompleteAsync()
        \x7b
            return await _context.SaveChangesAsync();
        \x7d

        protected virtual void Dispose(bool disposing)
        \x7b
            if (!_disposed)
            \x7b
                if (disposing)
                \x7b
                    _context.Dispose();
                \x7d
            \x7d
            _disposed = true;
        \x7d

        public void Dispose()
        \x7b
            Dispose(true);
            GC.SuppressFinalize(this);
        \x7d
    \x7d
\x7d
"
  [("IRepository.cs", irepositoryText), ("Repository.cs", repositoryText),
   ("IUnitOfWork.cs", iuow), ("UnitOfWork.cs", uow)]

/-- The fixed `IService.cs` text (lines 665-693). -/
def iserviceText : String :=
  "using System;
using System.Collections.Generic;
using System.Linq;
using System.Linq.Expressions;
using System.Threading.Tasks;

namespace YourNamespace.Services
\x7b
    public interface IService<T> where T : class
    \x7b
        IQueryable<T> GetAll();
        IEnumerable<T> Find(Expression<Func<T, bool>> predicate);
        T GetById(object id);
        void Add(T entity);
        void AddRange(IEnumerable<T> entities);
        void Update(T entity);
        void Remove(T entity);
        void RemoveRange(IEnumerable<T> entities);
        void SaveChanges();
        
        // Async methods
        Task<List<T>> GetAllAsync();
        Task<T> GetByIdAsync(object id);
        Task AddAsync(T entity);
        Task AddRangeAsync(IEnumerable<T> entities);
        Task SaveChangesAsync();
    \x7d
\x7d
"

/-- The fixed `Service.cs` text (lines 696-787). -/
def serviceText : String :=
  "using System;
using System.Collections.Generic;
using System.Linq;
using System.Linq.Expressions;
using System.Threading.Tasks;
using YourNamespace.Repositories;

namespace YourNamespace.Services
\x7b
    public class Service<T> : IService<T> where T : class
    \x7b
        protected readonly IUnitOfWork _unitOfWork;
        protected readonly IRepository<T> _repository;

        public Service(IUnitOfWork unitOfWork, IRepository<T> repository)
        \x7b
            _unitOfWork = unitOfWork;
            _repository = repository;
        \x7d

        public virtual IQueryable<T> GetAll()
        \x7b
            return _repository.GetAll();
        \x7d

        public virtual IEnumerable<T> Find(Expression<Func<T, bool>> predicate)
        \x7b
            return _repository.Find(predicate);
        \x7d

        public virtual T GetById(object id)
        \x7b
            return _repository.GetById(id);
        \x7d

        public virtual void Add(T entity)
        \x7b
            _repository.Add(entity);
        \x7d

        public virtual void AddRange(IEnumerable<T> entities)
        \x7b
            _repository.AddRange(entities);
        \x7d

        public virtual void Update(T entity)
        \x7b
            _repository.Update(entity);
        \x7d

        public virtual void Remove(T entity)
        \x7b
            _repository.Remove(entity);
        \x7d

        public virtual void RemoveRange(IEnumerable<T> entities)
        \x7b
            _repository.RemoveRange(entities);
        \x7d

        public virtual void SaveChanges()
        \x7b
            _unitOfWork.Complete();
        \x7d

        public virtual async Task<List<T>> GetAllAsync()
        \x7b
            return await _repository.GetAllAsync();
        \x7d

        public virtual async Task<T> GetByIdAsync(object id)
        \x7b
            return await _repository.GetByIdAsync(id);
        \x7d

        public virtual async Task AddAsync(T entity)
        \x7b
            await _repository.AddAsync(entity);
        \x7d

        public virtual async Task AddRangeAsync(IEnumerable<T> entities)
        \x7b
            await _repository.AddRangeAsync(entities);
        \x7d

        public virtual async Task SaveChangesAsync()
        \x7b
            await _unitOfWork.CompleteAsync();
        \x7d
    \x7d
\x7d
"

/-- `generate_service_layer` (lines 652-829): two fixed files, then one
interface and one implementation file per table. -/
def generate_service_layer (s : Schema) : List (String × String) :=
  let base := dictInsert (dictInsert [] "IService.cs" iserviceText) "Service.cs" serviceText
  s.tables.foldl (fun services p =>
    let class_name := pascal_case p.1
    let service_interface_name := "I" ++ class_name ++ "Service"
    let service_class_name := class_name ++ "Service"
    let iface := "using System.Collections.Generic;
using System.Threading.Tasks;
using YourNamespace.Models;

namespace YourNamespace.Services
\x7b
    public interface " ++ service_interface_name ++ " : IService<" ++ class_name ++ ">
    \x7b
        // Add specific methods for " ++ class_name ++ " here
    \x7d
\x7d
"
    let impl := "using System.Collections.Generic;
using System.Threading.Tasks;
using YourNamespace.Models;
using YourNamespace.Repositories;

namespace YourNamespace.Services
\x7b
    public class " ++ service_class_name ++ " : Service<" ++ class_name ++ ">, " ++ service_interface_name ++ "
    \x7b
        public " ++ service_class_name ++ "(IUnitOfWork unitOfWork) 
            : base(unitOfWork, unitOfWork." ++ class_name ++ "Repository)
        \x7b
        \x7d

        // Implement specific methods for " ++ class_name ++ " here
    \x7d
\x7d
"
    dictInsert (dictInsert services (service_interface_name ++ ".cs") iface)
      (service_class_name ++ ".cs") impl) base

/-- `generate_ef_code` (lines 831-878): the full output bundle, a dict from
logical path to file content built in source order. -/
def generate_ef_code (s : Schema) : List (String × String) :=
  let files := s.tables.foldl (fun fs p =>
    dictInsert fs ("Models/" ++ pascal_case p.1 ++ ".cs")
      (generate_entity_class p.1 p.2.columns p.2.primary_keys p.2.foreign_keys)) []
  let files := dictInsert files "Data/YourDbContext.cs" (generate_dbcontext_class s "YourDbContext")
  let files := (generate_entity_configurations s).foldl (fun fs p =>
    dictInsert fs ("Data/Configurations/" ++ p.1 ++ ".cs") p.2) files
  let files := dictInsert files "Startup_EF_Config.cs" generate_startup_code
  let files := dictInsert files "EF_Migrations_Commands.txt" generate_migrations_commands
  let files := (generate_repository_pattern s).foldl (fun fs p =>
    dictInsert fs ("Repositories/" ++ p.1) p.2) files
  (generate_service_layer s).foldl (fun fs p =>
    dictInsert fs ("Services/" ++ p.1) p.2) files

/-! ## UML diagram generator (`uml_generator.py`)

`pydot.Dot` is modelled as node and edge lists in append order (pydot keeps
duplicates); a node is its name and HTML label, an edge its endpoints, an
optional label and the style attributes the source sets.  The one fallible
operation is the relationship edge label, which indexes
`rel['source_columns'][0]` and `rel['target_columns'][0]` unguarded
(lines 211-227), so the entry point is `Except`-valued.  The local
`nx.DiGraph()` of line 230 is created but never read and is not modelled. -/

structure DotNode where
  name : String
  label : String
deriving DecidableEq, Repr

structure DotEdge where
  src : String
  dst : String
  label : Option String
  color : String
  style : String
  arrowhead : String
deriving DecidableEq, Repr

structure DotGraph where
  nodes : List DotNode
  edges : List DotEdge
deriving DecidableEq, Repr

/-- The `COLORS` dict (uml_generator.py lines 16-33). -/
def colorTableHeader : String := "#3498db"
def colorTableBody : String := "#d6eaf8"
def colorViewHeader : String := "#2ecc71"
def colorViewBody : String := "#d5f5e3"
def colorProcHeader : String := "#9b59b6"
def colorProcBody : String := "#e8daef"
def colorFuncHeader : String := "#f1c40f"
def colorFuncBody : String := "#fcf3cf"

/-- The `RELATIONSHIP_STYLES` dict (lines 36-57), one triple per category. -/
def fkStyle : String × String × String := ("#e74c3c", "solid", "normal")
def viewDepStyle : String × String × String := ("#16a085", "dashed", "vee")
def procDepStyle : String × String × String := ("#8e44ad", "dotted", "diamond")
def funcDepStyle : String × String × String := ("#d35400", "dotted", "odiamond")

/-- `create_table_uml` (lines 63-104). -/
def create_table_uml (table_name : String) (columns : List Column)
    (primary_keys : List String) (foreign_keys : List ForeignKey) : String :=
  let header := "<
    <TABLE BORDER=\"0\" CELLBORDER=\"1\" CELLSPACING=\"0\" CELLPADDING=\"4\" BGCOLOR=\"" ++ colorTableBody ++ "\">
    <TR><TD COLSPAN=\"3\" BGCOLOR=\"" ++ colorTableHeader ++ "\"><FONT COLOR=\"white\"><B>" ++ table_name ++ "</B></FONT></TD></TR>
    <TR><TD><B>Column</B></TD><TD><B>Type</B></TD><TD><B>Attributes</B></TD></TR>
    "
  let withRows := columns.foldl (fun acc column =>
    let attributes :=
      (if primary_keys.contains column.name then ["PK"] else [])
      ++ foreign_keys.flatMap (fun fk =>
          if fk.constrained_columns.contains column.name then
            ["FK → " ++ fk.referred_table]
          else [])
      ++ (if !column.nullable then ["NOT NULL"] else [])
    let attr_text := String.intercalate ", " attributes
    acc ++ "<TR><TD>" ++ column.name ++ "</TD><TD>" ++ column.type ++ "</TD><TD>"
      ++ attr_text ++ "</TD></TR>") header
  withRows ++ "</TABLE>>"

/-- `create_view_uml` (lines 106-122). -/
def create_view_uml (view_name : String) : String :=
  "<
    <TABLE BORDER=\"0\" CELLBORDER=\"1\" CELLSPACING=\"0\" CELLPADDING=\"4\" BGCOLOR=\"" ++ colorViewBody ++ "\">
    <TR><TD BGCOLOR=\"" ++ colorViewHeader ++ "\"><FONT COLOR=\"white\"><B>" ++ view_name ++ "</B></FONT></TD></TR>
    <TR><TD>View</TD></TR>
    </TABLE>
    >>"

/-- `create_procedure_uml` (lines 124-140). -/
def create_procedure_uml (proc_name : String) : String :=
  "<
    <TABLE BORDER=\"0\" CELLBORDER=\"1\" CELLSPACING=\"0\" CELLPADDING=\"4\" BGCOLOR=\"" ++ colorProcBody ++ "\">
    <TR><TD BGCOLOR=\"" ++ colorProcHeader ++ "\"><FONT COLOR=\"white\"><B>" ++ proc_name ++ "</B></FONT></TD></TR>
    <TR><TD>Stored Procedure</TD></TR>
    </TABLE>
    >>"

/-- `create_function_uml` (lines 142-158). -/
def create_function_uml (func_name : String) : String :=
  "<
    <TABLE BORDER=\"0\" CELLBORDER=\"1\" CELLSPACING=\"0\" CELLPADDING=\"4\" BGCOLOR=\"" ++ colorFuncBody ++ "\">
    <TR><TD BGCOLOR=\"" ++ colorFuncHeader ++ "\"><FONT COLOR=\"white\"><B>" ++ func_name ++ "</B></FONT></TD></TR>
    <TR><TD>Function</TD></TR>
    </TABLE>
    >>"

/-- The relationship-edge loop of `generate_database_uml` (lines 211-227):
when tables are included, the edge label joins the FIRST source column and the
FIRST target column; an empty column list raises `IndexError` (the source
column is indexed first, as in the f-string's evaluation order). -/
def relationshipUmlEdges (include_tables : Bool) :
    List Relationship → Except String (List DotEdge)
  | [] => .ok []
  | r :: rest =>
    if include_tables then
      match r.source_columns with
      | [] => .error "IndexError"
      | sc :: _ =>
        match r.target_columns with
        | [] => .error "IndexError"
        | tc :: _ =>
          match relationshipUmlEdges include_tables rest with
          | .error e => .error e
          | .ok es =>
            .ok ({ src := r.source_table, dst := r.target_table,
                   label := Option.some (sc ++ " → " ++ tc),
                   color := fkStyle.1, style := fkStyle.2.1,
                   arrowhead := fkStyle.2.2 } :: es)
    else relationshipUmlEdges include_tables rest

/-- `generate_database_uml` (lines 160-272): nodes filtered by the four
inclusion flags, foreign-key edges (fallible, above), then the three families
of heuristic dependency edges, each label-free with its category's style. -/
def generate_database_uml (s : Schema) (include_tables include_views
    include_procedures include_functions : Bool) : Except String DotGraph :=
  let tableNodes : List DotNode :=
    if include_tables then
      s.tables.map (fun p =>
        { name := p.1,
          label := create_table_uml p.1 p.2.columns p.2.primary_keys p.2.foreign_keys })
    else []
  let viewNodes : List DotNode :=
    if include_views then s.views.map (fun p => { name := p.1, label := create_view_uml p.1 })
    else []
  let procNodes : List DotNode :=
    if include_procedures then
      s.stored_procedures.map (fun p => { name := p.1, label := create_procedure_uml p.1 })
    else []
  let funcNodes : List DotNode :=
    if include_functions then
      s.functions.map (fun p => { name := p.1, label := create_function_uml p.1 })
    else []
  match relationshipUmlEdges include_tables s.relationships with
  | .error e => .error e
  | .ok fkEdges =>
    let viewDepEdges : List DotEdge := s.views.flatMap (fun p =>
      if include_views && p.2 != "" then
        s.tables.flatMap (fun t =>
          if include_tables && mentionsTable p.2 t.1 then
            [{ src := p.1, dst := t.1, label := Option.none, color := viewDepStyle.1,
               style := viewDepStyle.2.1, arrowhead := viewDepStyle.2.2 }]
          else [])
      else [])
    let procDepEdges : List DotEdge := s.stored_procedures.flatMap (fun p =>
      if include_procedures && p.2 != "" then
        s.tables.flatMap (fun t =>
          if include_tables && mentionsTable p.2 t.1 then
            [{ src := p.1, dst := t.1, label := Option.none, color := procDepStyle.1,
               style := procDepStyle.2.1, arrowhead := procDepStyle.2.2 }]
          else [])
      else [])
    let funcDepEdges : List DotEdge := s.functions.flatMap (fun p =>
      if include_functions && p.2 != "" then
        s.tables.flatMap (fun t =>
          if include_tables && mentionsTable p.2 t.1 then
            [{ src := p.1, dst := t.1, label := Option.none, color := funcDepStyle.1,
               style := funcDepStyle.2.1, arrowhead := funcDepStyle.2.2 }]
          else [])
      else [])
    .ok { nodes := tableNodes ++ viewNodes ++ procNodes ++ funcNodes,
          edges := fkEdges ++ viewDepEdges ++ procDepEdges ++ funcDepEdges }

/-! ## Concrete schemas used by the theorems -/

/-- The empty schema (`tables={}`, `views={}`, no routines, no relationships). -/
def emptySchema : Schema := ⟨[], [], [], [], []⟩

/-- A table with a nullable `id` primary key and a nullable `ref` column that
is a foreign key to `ref_target.id`. -/
def cycleTable (ref_target : String) : TableInfo :=
  { columns := [⟨"id", "int", true, Option.none⟩, ⟨"ref", "int", true, Option.none⟩],
    primary_keys := ["id"],
    foreign_keys := [⟨["ref"], ref_target, ["id"]⟩] }

/-- Three tables whose foreign keys form the single cycle A→B→C→A. -/
def cycleSchema : Schema :=
  ⟨[("A", cycleTable "B"), ("B", cycleTable "C"), ("C", cycleTable "A")], [], [], [],
   [⟨"A", ["ref"], "B", ["id"], ""⟩, ⟨"B", ["ref"], "C", ["id"], ""⟩,
    ⟨"C", ["ref"], "A", ["id"], ""⟩]⟩

/-- A schema whose only object is a stored procedure with an empty definition. -/
def procOnlySchema : Schema := ⟨[], [], [("P", "")], [], []⟩

/-- A dynamically-typed schema whose stored procedure `P` has a truthy
non-string (malformed) definition value. -/
def dynBadSchema : SchemaD := ⟨[], [], [("P", DefVal.nonStr)], [], []⟩

/-- A dynamically-typed schema whose stored procedure `P` has a well-formed
definition that triggers one performance finding. -/
def dynOkSchema : SchemaD := ⟨[], [], [("P", DefVal.str "SELECT * FROM t")], [], []⟩

/-- A view definition whose only parentheses sit after the first `FROM`. -/
def subqueryViewDef : String := "SELECT name FROM t WHERE f(x) = 1"

/-- Two tables and one relationship whose column lists are both empty. -/
def umlBadSchema : Schema :=
  ⟨[("A", ⟨[], [], []⟩), ("B", ⟨[], [], []⟩)], [], [], [],
   [⟨"A", [], "B", [], ""⟩]⟩

/-- `umlBadSchema` with the degenerate relationship removed. -/
def umlBadSchemaNoRel : Schema := ⟨[("A", ⟨[], [], []⟩), ("B", ⟨[], [], []⟩)], [], [], [], []⟩

/-! ## Statement helpers -/

/-- Every finding the analyzer passes can produce carries one of the three
severity literals, and a kind that is never `"analysis_error"`. -/
def taggedOK (f : Finding) : Prop :=
  (f.severity = "high" ∨ f.severity = "medium" ∨ f.severity = "low")
    ∧ f.type ≠ "analysis_error"

/-- The findings of severity rank `i`, in their original order. -/
def severitySlice (i : Nat) (l : List Finding) : List Finding :=
  l.filter (fun f => severity_order f.severity == i)

/-- The first character of a string (blank for the empty string). -/
def headChar (s : String) : Char := s.data.headD ' '

/-- Modelled from the claim's words (C7): a `SELECT` keyword in the prefix
before the first `FROM` and a parenthesis in that same prefix.  This is the
condition the claim asserts, to be compared with the source's actual test in
`viewRecs`. -/
def viewSubqueryClaimCond (d : String) : Bool :=
  strContains (takeBeforeFirst d "FROM") "SELECT"
    && strContains (takeBeforeFirst d "FROM") "("

/-- The one finding `analyze_database` produces on `dynOkSchema`. -/
def dynOkFinding : Finding :=
  { type := "performance", severity := "medium", object := "P",
    message := "Stored procedure 'P' uses 'SELECT *', which may retrieve unnecessary columns. Consider specifying only needed columns." }

/-- The subquery finding `analyze_views` emits for a view (C7). -/
def lowSubqueryFinding (n : String) : Finding :=
  { type := "performance", severity := "low", object := n,
    message := "View '" ++ n ++ "' may contain subqueries in the SELECT clause, which can impact performance. Consider restructuring if possible." }

/-! # Lemmas about the stable severity sort -/

theorem mem_insSorted (a x : Finding) : ∀ l, a ∈ insSorted x l ↔ a = x ∨ a ∈ l := by
  intro l
  induction l with
  | nil => simp [insSorted]
  | cons y ys ih =>
    simp only [insSorted]
    split
    · simp only [List.mem_cons, ih]
      tauto
    · simp [List.mem_cons]

theorem mem_sortFold (a : Finding) (l : List Finding) :
    ∀ acc, a ∈ l.foldl (fun acc x => insSorted x acc) acc ↔ a ∈ acc ∨ a ∈ l := by
  induction l with
  | nil => intro acc; simp
  | cons x xs ih =>
    intro acc
    rw [List.foldl_cons, ih, mem_insSorted]
    simp only [List.mem_cons]
    tauto

theorem mem_sortBySeverity (a : Finding) (l : List Finding) :
    a ∈ sortBySeverity l ↔ a ∈ l := by
  rw [sortBySeverity, mem_sortFold]
  simp

theorem insSorted_append_le (x : Finding) : ∀ (A B : List Finding),
    (∀ y ∈ A, severity_order y.severity ≤ severity_order x.severity) →
    insSorted x (A ++ B) = A ++ insSorted x B := by
  intro A
  induction A with
  | nil => intro B _; rfl
  | cons y ys ih =>
    intro B h
    simp only [List.cons_append, insSorted, List.append_eq]
    rw [if_pos (h y (List.mem_cons_self y ys)), ih B (fun z hz => h z (List.mem_cons_of_mem _ hz))]

theorem insSorted_front (x : Finding) (B : List Finding)
    (h : ∀ y ∈ B, severity_order x.severity < severity_order y.severity) :
    insSorted x B = x :: B := by
  cases B with
  | nil => rfl
  | cons y ys =>
    simp only [insSorted]
    rw [if_neg (by have := h y (List.mem_cons_self y ys); omega)]

theorem mem_severitySlice (f : Finding) (i : Nat) (l : List Finding) :
    f ∈ severitySlice i l ↔ f ∈ l ∧ severity_order f.severity = i := by
  simp [severitySlice, List.mem_filter]

theorem severitySlice_append (i : Nat) (l m : List Finding) :
    severitySlice i (l ++ m) = severitySlice i l ++ severitySlice i m := by
  simp [severitySlice, List.filter_append]

theorem insSorted_partition (x : Finding) (m : List Finding)
    (hx : severity_order x.severity ≤ 2) :
    insSorted x (severitySlice 0 m ++ severitySlice 1 m ++ severitySlice 2 m)
      = severitySlice 0 (m ++ [x]) ++ severitySlice 1 (m ++ [x])
          ++ severitySlice 2 (m ++ [x]) := by
  have hsl : ∀ i, ∀ y ∈ severitySlice i m, severity_order y.severity = i := by
    intro i y hy
    exact ((mem_severitySlice y i m).mp hy).2
  have hone : ∀ i, severity_order x.severity = i →
      severitySlice i (m ++ [x]) = severitySlice i m ++ [x] := by
    intro i hi
    rw [severitySlice_append]
    simp [severitySlice, List.filter, hi]
  have hother : ∀ i, severity_order x.severity ≠ i →
      severitySlice i (m ++ [x]) = severitySlice i m := by
    intro i hi
    rw [severitySlice_append]
    have hb : (severity_order x.severity == i) = false := by
      rw [beq_eq_false_iff_ne]
      exact hi
    have : severitySlice i [x] = [] := by
      simp [severitySlice, List.filter, hb]
    rw [this, List.append_nil]
  have h3 : severity_order x.severity = 0 ∨ severity_order x.severity = 1
      ∨ severity_order x.severity = 2 := by omega
  rcases h3 with h | h | h
  · rw [List.append_assoc,
      insSorted_append_le x (severitySlice 0 m) _ (fun y hy => by rw [hsl 0 y hy]; omega),
      insSorted_front x _ (by
        intro y hy
        rcases List.mem_append.mp hy with hy | hy
        · rw [hsl 1 y hy]; omega
        · rw [hsl 2 y hy]; omega),
      hone 0 h, hother 1 (by omega), hother 2 (by omega)]
    simp
  · rw [insSorted_append_le x (severitySlice 0 m ++ severitySlice 1 m) _ (fun y hy => by
        rcases List.mem_append.mp hy with hy | hy
        · rw [hsl 0 y hy]; omega
        · rw [hsl 1 y hy]; omega),
      insSorted_front x _ (fun y hy => by rw [hsl 2 y hy]; omega),
      hone 1 h, hother 0 (by omega), hother 2 (by omega)]
    simp
  · rw [← List.append_nil (severitySlice 0 m ++ severitySlice 1 m ++ severitySlice 2 m),
      insSorted_append_le x _ [] (fun y hy => by
        rcases List.mem_append.mp hy with hy | hy
        · rcases List.mem_append.mp hy with hy | hy
          · rw [hsl 0 y hy]; omega
          · rw [hsl 1 y hy]; omega
        · rw [hsl 2 y hy]; omega),
      hone 2 h, hother 0 (by omega), hother 1 (by omega)]
    simp [insSorted]

theorem sortFold_partition : ∀ (l m : List Finding),
    (∀ f ∈ l, severity_order f.severity ≤ 2) →
    l.foldl (fun acc x => insSorted x acc)
        (severitySlice 0 m ++ severitySlice 1 m ++ severitySlice 2 m)
      = severitySlice 0 (m ++ l) ++ severitySlice 1 (m ++ l) ++ severitySlice 2 (m ++ l) := by
  intro l
  induction l with
  | nil => intro m _; simp
  | cons x xs ih =>
    intro m h
    rw [List.foldl_cons, insSorted_partition x m (h x (List.mem_cons_self x xs)),
      ih (m ++ [x]) (fun f hf => h f (List.mem_cons_of_mem _ hf))]
    simp

theorem sortBySeverity_partition (l : List Finding)
    (h : ∀ f ∈ l, severity_order f.severity ≤ 2) :
    sortBySeverity l = severitySlice 0 l ++ severitySlice 1 l ++ severitySlice 2 l := by
  have := sortFold_partition l [] h
  simpa [sortBySeverity, severitySlice] using this

/-! # The findings every pass can produce -/

theorem taggedOK_nil : ∀ f ∈ ([] : List Finding), taggedOK f := by
  intro f hf
  simp at hf

theorem taggedOK_single {g : Finding} (hg : taggedOK g) : ∀ f ∈ [g], taggedOK f := by
  intro f hf
  rw [List.mem_singleton] at hf
  subst hf
  exact hg

theorem taggedOK_append {A B : List Finding} (hA : ∀ f ∈ A, taggedOK f)
    (hB : ∀ f ∈ B, taggedOK f) : ∀ f ∈ A ++ B, taggedOK f := by
  intro f hf
  rcases List.mem_append.mp hf with h | h
  · exact hA f h
  · exact hB f h

theorem taggedOK_ite {c : Prop} [Decidable c] {A B : List Finding}
    (hA : ∀ f ∈ A, taggedOK f) (hB : ∀ f ∈ B, taggedOK f) :
    ∀ f ∈ (if c then A else B), taggedOK f := by
  intro f hf
  split at hf
  · exact hA f hf
  · exact hB f hf

theorem taggedOK_flatMap {α : Type} {l : List α} {g : α → List Finding}
    (hg : ∀ a, ∀ f ∈ g a, taggedOK f) : ∀ f ∈ l.flatMap g, taggedOK f := by
  intro f hf
  rw [List.mem_flatMap] at hf
  obtain ⟨a, _, hfa⟩ := hf
  exact hg a f hfa

theorem taggedOK_tableRecs (tn : String) (ti : TableInfo) :
    ∀ f ∈ tableRecs tn ti, taggedOK f := by
  refine taggedOK_append (taggedOK_append (taggedOK_append (taggedOK_append
    (taggedOK_ite (taggedOK_single ⟨Or.inl rfl, by simp⟩) taggedOK_nil)
    (taggedOK_flatMap (fun column =>
      taggedOK_ite (taggedOK_single ⟨Or.inr (Or.inl rfl), by simp⟩) taggedOK_nil)))
    (taggedOK_ite (taggedOK_single ⟨Or.inr (Or.inr rfl), by simp⟩) taggedOK_nil))
    (taggedOK_ite (taggedOK_single ⟨Or.inr (Or.inr rfl), by simp⟩) taggedOK_nil))
    (taggedOK_flatMap (fun fk => taggedOK_flatMap (fun col =>
      taggedOK_ite (taggedOK_single ⟨Or.inr (Or.inl rfl), by simp⟩) taggedOK_nil)))

theorem taggedOK_table_structure (tables : List (String × TableInfo)) :
    ∀ f ∈ analyze_table_structure tables, taggedOK f :=
  taggedOK_flatMap (fun p => taggedOK_tableRecs p.1 p.2)

theorem taggedOK_junctionRecs : ∀ (rels : List Relationship)
    (counts : List ((String × String) × Nat)), ∀ f ∈ junctionRecs counts rels, taggedOK f := by
  intro rels
  induction rels with
  | nil => intro counts f hf; simp [junctionRecs] at hf
  | cons r rest ih =>
    intro counts f hf
    simp only [junctionRecs, List.mem_append] at hf
    rcases hf with h | h
    · exact taggedOK_ite (taggedOK_single ⟨Or.inr (Or.inl rfl), by simp⟩) taggedOK_nil f h
    · exact ih _ f h

theorem taggedOK_relationships (tables : List (String × TableInfo))
    (rels : List Relationship) : ∀ f ∈ analyze_relationships tables rels, taggedOK f := by
  refine taggedOK_append ?_ (taggedOK_junctionRecs rels [])
  intro f hf
  rw [List.mem_map] at hf
  obtain ⟨t, _, rfl⟩ := hf
  exact ⟨Or.inr (Or.inl rfl), by simp⟩

theorem taggedOK_cycles (tables : List (String × TableInfo))
    (rels : List Relationship) : ∀ f ∈ analyze_dependency_cycles tables rels, taggedOK f := by
  intro f hf
  simp only [analyze_dependency_cycles, List.mem_map] at hf
  obtain ⟨cyc, _, rfl⟩ := hf
  exact ⟨Or.inl rfl, by simp⟩

theorem taggedOK_procRecs (n d : String) : ∀ f ∈ procRecs n d, taggedOK f :=
  taggedOK_append (taggedOK_append (taggedOK_append
    (taggedOK_ite (taggedOK_single ⟨Or.inl rfl, by simp⟩) taggedOK_nil)
    (taggedOK_ite (taggedOK_single ⟨Or.inr (Or.inl rfl), by simp⟩) taggedOK_nil))
    (taggedOK_ite (taggedOK_single ⟨Or.inr (Or.inl rfl), by simp⟩) taggedOK_nil))
    (taggedOK_ite (taggedOK_single ⟨Or.inl rfl, by simp⟩) taggedOK_nil)

theorem taggedOK_procs (procs : List (String × String)) :
    ∀ f ∈ analyze_stored_procedures procs, taggedOK f :=
  taggedOK_flatMap (fun p => taggedOK_ite taggedOK_nil (taggedOK_procRecs p.1 p.2))

theorem taggedOK_funcRecs (n d : String) : ∀ f ∈ funcRecs n d, taggedOK f :=
  taggedOK_append (taggedOK_append
    (taggedOK_ite (taggedOK_single ⟨Or.inr (Or.inl rfl), by simp⟩) taggedOK_nil)
    (taggedOK_ite (taggedOK_single ⟨Or.inr (Or.inl rfl), by simp⟩) taggedOK_nil))
    (taggedOK_ite (taggedOK_single ⟨Or.inl rfl, by simp⟩) taggedOK_nil)

theorem taggedOK_funcs (funcs : List (String × String)) :
    ∀ f ∈ analyze_functions funcs, taggedOK f :=
  taggedOK_flatMap (fun p => taggedOK_ite taggedOK_nil (taggedOK_funcRecs p.1 p.2))

theorem taggedOK_viewRecs (n d : String) : ∀ f ∈ viewRecs n d, taggedOK f :=
  taggedOK_append
    (taggedOK_ite (taggedOK_single ⟨Or.inr (Or.inl rfl), by simp⟩) taggedOK_nil)
    (taggedOK_ite (taggedOK_single ⟨Or.inr (Or.inr rfl), by simp⟩) taggedOK_nil)

theorem taggedOK_views (views : List (String × String)) :
    ∀ f ∈ analyze_views views, taggedOK f :=
  taggedOK_flatMap (fun p => taggedOK_ite taggedOK_nil (taggedOK_viewRecs p.1 p.2))

theorem taggedOK_allFindings (s : Schema) : ∀ f ∈ allFindings s, taggedOK f :=
  taggedOK_append (taggedOK_append (taggedOK_append (taggedOK_append (taggedOK_append
    (taggedOK_table_structure s.tables)
    (taggedOK_relationships s.tables s.relationships))
    (taggedOK_cycles s.tables s.relationships))
    (taggedOK_procs s.stored_procedures))
    (taggedOK_funcs s.functions))
    (taggedOK_views s.views)

theorem severity_le_two_of_taggedOK {f : Finding} (h : taggedOK f) :
    severity_order f.severity ≤ 2 := by
  rcases h.1 with h | h | h <;> rw [h] <;> decide

/-- Claim C9: for every schema, `analyze_database` returns the concatenation
of the six passes in source order (structural, relationship, cycle, routine,
function, view — that concatenation is `allFindings`), stably sorted by
severity alone: the result is exactly the high-severity findings of the
concatenation in their original relative order, then the medium ones, then
the low ones. -/
theorem analyze_database_stable_severity_sort (s : Schema) :
    analyze_database s
      = severitySlice 0 (allFindings s) ++ severitySlice 1 (allFindings s)
          ++ severitySlice 2 (allFindings s) := by
  rw [analyze_database]
  apply sortBySeverity_partition
  intro f hf
  exact severity_le_two_of_taggedOK (taggedOK_allFindings s f hf)

/-! # The dynamically-typed passes only ever return tagged findings -/

theorem taggedOK_procsD : ∀ (ps : List (String × DefVal)) (l : List Finding),
    analyze_stored_proceduresD ps = .ok l → ∀ f ∈ l, taggedOK f := by
  intro ps
  induction ps with
  | nil =>
    intro l h
    simp only [analyze_stored_proceduresD] at h
    cases h
    exact taggedOK_nil
  | cons p rest ih =>
    intro l h
    obtain ⟨n, d⟩ := p
    cases d with
    | null =>
      simp only [analyze_stored_proceduresD] at h
      exact ih l h
    | str sdef =>
      simp only [analyze_stored_proceduresD] at h
      split at h
      · exact ih l h
      · cases hrec : analyze_stored_proceduresD rest with
        | error e => rw [hrec] at h; cases h
        | ok tl =>
          rw [hrec] at h
          cases h
          exact taggedOK_append (taggedOK_procRecs n sdef) (ih tl hrec)
    | nonStr =>
      simp only [analyze_stored_proceduresD] at h
      cases h

theorem taggedOK_funcsD : ∀ (fs : List (String × DefVal)) (l : List Finding),
    analyze_functionsD fs = .ok l → ∀ f ∈ l, taggedOK f := by
  intro fs
  induction fs with
  | nil =>
    intro l h
    simp only [analyze_functionsD] at h
    cases h
    exact taggedOK_nil
  | cons p rest ih =>
    intro l h
    obtain ⟨n, d⟩ := p
    cases d with
    | null =>
      simp only [analyze_functionsD] at h
      exact ih l h
    | str sdef =>
      simp only [analyze_functionsD] at h
      split at h
      · exact ih l h
      · cases hrec : analyze_functionsD rest with
        | error e => rw [hrec] at h; cases h
        | ok tl =>
          rw [hrec] at h
          cases h
          exact taggedOK_append (taggedOK_funcRecs n sdef) (ih tl hrec)
    | nonStr =>
      simp only [analyze_functionsD] at h
      cases h

theorem taggedOK_viewsD : ∀ (vs : List (String × DefVal)) (l : List Finding),
    analyze_viewsD vs = .ok l → ∀ f ∈ l, taggedOK f := by
  intro vs
  induction vs with
  | nil =>
    intro l h
    simp only [analyze_viewsD] at h
    cases h
    exact taggedOK_nil
  | cons p rest ih =>
    intro l h
    obtain ⟨n, d⟩ := p
    cases d with
    | null =>
      simp only [analyze_viewsD] at h
      exact ih l h
    | str sdef =>
      simp only [analyze_viewsD] at h
      split at h
      · exact ih l h
      · cases hrec : analyze_viewsD rest with
        | error e => rw [hrec] at h; cases h
        | ok tl =>
          rw [hrec] at h
          cases h
          exact taggedOK_append (taggedOK_viewRecs n sdef) (ih tl hrec)
    | nonStr =>
      simp only [analyze_viewsD] at h
      cases h

/-- Claim C4 (amended): `analyze_database` performs NO per-rule error
isolation.  Whenever it returns a findings list at all, that list contains no
finding of kind "analysis_error" (no pass ever produces that kind), and a
failure raised by a rule pass propagates to the caller unchanged, aborting
the remaining passes. -/
theorem analyze_database_no_error_isolation (s : SchemaD) :
    (∀ l, analyze_databaseD s = .ok l →
      l.filter (fun f => f.type == "analysis_error") = [])
    ∧ (∀ e, analyze_stored_proceduresD s.stored_procedures = .error e →
        analyze_databaseD s = .error e) := by
  constructor
  · intro l h
    simp only [analyze_databaseD] at h
    cases h4 : analyze_stored_proceduresD s.stored_procedures with
    | error e => rw [h4] at h; cases h
    | ok p4 =>
      rw [h4] at h
      cases h5 : analyze_functionsD s.functions with
      | error e => rw [h5] at h; cases h
      | ok p5 =>
        rw [h5] at h
        cases h6 : analyze_viewsD s.views with
        | error e => rw [h6] at h; cases h
        | ok p6 =>
          rw [h6] at h
          cases h
          rw [List.filter_eq_nil_iff]
          intro f hf
          have hmem := (mem_sortBySeverity f _).mp hf
          have htag : taggedOK f := by
            rcases List.mem_append.mp hmem with hm | hm
            · rcases List.mem_append.mp hm with hm | hm
              · rcases List.mem_append.mp hm with hm | hm
                · rcases List.mem_append.mp hm with hm | hm
                  · rcases List.mem_append.mp hm with hm | hm
                    · exact taggedOK_table_structure _ f hm
                    · exact taggedOK_relationships _ _ f hm
                  · exact taggedOK_cycles _ _ f hm
                · exact taggedOK_procsD _ p4 h4 f hm
              · exact taggedOK_funcsD _ p5 h5 f hm
            · exact taggedOK_viewsD _ p6 h6 f hm
          rw [beq_iff_eq]
          exact htag.2
  · intro e he
    simp only [analyze_databaseD, he]

/-- Claim C4 counterexample: on a schema whose stored procedure has a
malformed (truthy non-string) definition, the routine pass's `TypeError`
propagates out of `analyze_database`; no findings sequence — in particular no
"analysis_error" finding — is returned, and the later passes never run. -/
theorem analyze_database_malformed_raises :
    analyze_databaseD dynBadSchema = .error "TypeError" := rfl

/-- Instance of the C4 amended theorem at a concrete schema whose analysis
succeeds with one finding. -/
theorem analyze_database_no_error_isolation_witness :
    ([dynOkFinding] : List Finding).filter (fun f => f.type == "analysis_error") = [] :=
  (analyze_database_no_error_isolation dynOkSchema).1 [dynOkFinding] rfl

/-! # Claim C7: the view subquery heuristic -/

theorem filter_low_viewRecs (n d : String) :
    (viewRecs n d).filter (fun f => f.severity == "low")
      = (if strContains d "SELECT " && strContains d "("
            && strContains (takeBeforeFirst d "FROM") "SELECT" then
          [lowSubqueryFinding n]
        else []) := by
  cases h1 : strContains d "SELECT *" <;>
    cases h2 : strContains d "SELECT " && strContains d "("
      && strContains (takeBeforeFirst d "FROM") "SELECT" <;>
    simp [viewRecs, h1, h2, lowSubqueryFinding]

/-- Claim C7 (amended): for every view list, the low-severity subquery
findings of the view pass are exactly one finding per view whose definition
is non-empty, contains `"SELECT "` anywhere, contains `"("` ANYWHERE IN THE
WHOLE DEFINITION (not merely in the prefix before the first `FROM`), and
contains `"SELECT"` in the prefix before the first `FROM`. -/
theorem analyze_views_subquery_rule (views : List (String × String)) :
    (analyze_views views).filter (fun f => f.severity == "low")
      = views.flatMap (fun p =>
          if p.2 != "" && (strContains p.2 "SELECT " && strContains p.2 "("
              && strContains (takeBeforeFirst p.2 "FROM") "SELECT") then
            [lowSubqueryFinding p.1]
          else []) := by
  induction views with
  | nil => rfl
  | cons p rest ih =>
    have hsplit : analyze_views (p :: rest)
        = (if p.2 == "" then [] else viewRecs p.1 p.2) ++ analyze_views rest := rfl
    have hhead : ((if p.2 == "" then [] else viewRecs p.1 p.2).filter
          (fun f => f.severity == "low"))
        = (if p.2 != "" && (strContains p.2 "SELECT " && strContains p.2 "("
              && strContains (takeBeforeFirst p.2 "FROM") "SELECT") then
            [lowSubqueryFinding p.1]
          else []) := by
      cases hemp : p.2 == "" with
      | true =>
        have he : p.2 = "" := by simpa using hemp
        simp [he]
      | false =>
        rw [if_neg (by simp [hemp])]
        rw [filter_low_viewRecs]
        simp [bne, hemp]
    rw [hsplit, List.filter_append, hhead, ih]
    rfl

/-- Claim C7 counterexample: the view definition
`"SELECT name FROM t WHERE f(x) = 1"` has its only parenthesis after the
first `FROM` — the claim's condition (a parenthesis in the prefix before
`FROM`) is false — yet the pass emits the low subquery finding, because the
source tests `"(" in view_def` against the whole definition. -/
theorem analyze_views_subquery_rule_counterexample :
    (analyze_views [("V", subqueryViewDef)]).filter (fun f => f.severity == "low")
        = [lowSubqueryFinding "V"]
    ∧ viewSubqueryClaimCond subqueryViewDef = false := by
  constructor
  · rfl
  · rfl

/-! # Claim C5: the SQL-to-host type mapping -/

/-- Claim C5: `get_csharp_type` takes the substring before the first `(`,
lowercases it, and looks the base type up in the fixed map, returning the
mapped host type; every base type outside the map falls back to `"object"`,
so the function is total and never raises. -/
theorem get_csharp_type_spec (sql_type : String) :
    get_csharp_type sql_type
      = ((dictFind SQL_TO_CSHARP_TYPE_MAP (pyLower (takeBeforeFirst sql_type "("))).getD
          "object")
    ∧ (dictFind SQL_TO_CSHARP_TYPE_MAP (pyLower (takeBeforeFirst sql_type "(")) = Option.none →
        get_csharp_type sql_type = "object") := by
  refine ⟨rfl, ?_⟩
  intro h
  simp [get_csharp_type, h]

/-- Instance of the C5 theorem at a type name outside the fixed map. -/
theorem get_csharp_type_spec_witness :
    dictFind SQL_TO_CSHARP_TYPE_MAP (pyLower (takeBeforeFirst "MyCustomType(12)" "("))
        = Option.none
    ∧ get_csharp_type "MyCustomType(12)" = "object" :=
  ⟨rfl, (get_csharp_type_spec "MyCustomType(12)").2 rfl⟩

/-! # Claim C1: determinism of code generation -/

/-- Claim C1: `generate_ef_code` is a pure function of the schema alone — it
reads no clock, no randomness and no mutable global — so two runs on an
unchanged schema produce the same path set and byte-identical content at
every path. -/
theorem generate_ef_code_deterministic (s₁ s₂ : Schema) (h : s₁ = s₂) :
    (generate_ef_code s₁).map Prod.fst = (generate_ef_code s₂).map Prod.fst
    ∧ ∀ p, dictFind (generate_ef_code s₁) p = dictFind (generate_ef_code s₂) p := by
  subst h
  exact ⟨rfl, fun _ => rfl⟩

/-- Instance of the C1 theorem at the empty schema. -/
theorem generate_ef_code_deterministic_witness :
    emptySchema = emptySchema
    ∧ ((generate_ef_code emptySchema).map Prod.fst
          = (generate_ef_code emptySchema).map Prod.fst
        ∧ ∀ p, dictFind (generate_ef_code emptySchema) p
            = dictFind (generate_ef_code emptySchema) p) :=
  ⟨rfl, generate_ef_code_deterministic emptySchema emptySchema rfl⟩

/-! # Claim C2: behaviour on the empty schema -/

set_option maxRecDepth 100000 in
/-- Claim C2: on the empty schema the analyzer returns the empty sequence;
the metrics are all zero (0/1 divisions, density guard, zero-node component
count — nothing raises); and generation emits exactly the nine fixed
non-table-dependent files — the context (with no DbSet collection), startup
and migrations snippets, and the generic repository, unit-of-work and
service files — with no entity, configuration or per-table service file. -/
theorem empty_schema_behaviour :
    analyze_database emptySchema = []
    ∧ (get_database_metrics emptySchema).table_count = 0
    ∧ (get_database_metrics emptySchema).view_count = 0
    ∧ (get_database_metrics emptySchema).stored_procedure_count = 0
    ∧ (get_database_metrics emptySchema).function_count = 0
    ∧ (get_database_metrics emptySchema).relationship_count = 0
    ∧ (get_database_metrics emptySchema).total_columns = 0
    ∧ (get_database_metrics emptySchema).primary_key_count = 0
    ∧ (get_database_metrics emptySchema).foreign_key_count = 0
    ∧ (get_database_metrics emptySchema).nullable_column_count = 0
    ∧ (get_database_metrics emptySchema).avg_in_degree = 0
    ∧ (get_database_metrics emptySchema).avg_out_degree = 0
    ∧ (get_database_metrics emptySchema).density = 0
    ∧ (get_database_metrics emptySchema).connected_components = 0
    ∧ (generate_ef_code emptySchema).map Prod.fst
        = ["Data/YourDbContext.cs", "Startup_EF_Config.cs", "EF_Migrations_Commands.txt",
           "Repositories/IRepository.cs", "Repositories/Repository.cs",
           "Repositories/IUnitOfWork.cs", "Repositories/UnitOfWork.cs",
           "Services/IService.cs", "Services/Service.cs"]
    ∧ dictFind (generate_ef_code emptySchema) "Data/YourDbContext.cs"
        = Option.some (generate_dbcontext_class emptySchema "YourDbContext")
    ∧ strContains (generate_dbcontext_class emptySchema "YourDbContext") "DbSet" = false :=
  ⟨rfl, rfl, rfl, rfl, rfl, rfl, rfl, rfl, rfl, rfl,
   by simp [get_database_metrics, relationshipGraph, emptySchema],
   by simp [get_database_metrics, relationshipGraph, emptySchema],
   rfl, rfl, rfl, by decide, by decide⟩

/-! # Claim C3: the three-table cycle -/

/-- Claim C3: on the schema whose foreign keys form the single cycle
A→B→C→A, `analyze_database` emits exactly one dependency_cycle finding, of
high severity, whose subject is a rotation of `"A → B → C"`, and the metrics
report exactly one connected component. -/
theorem cycle_schema_behaviour :
    ((analyze_database cycleSchema).filter (fun f => f.type == "dependency_cycle")).length = 1
    ∧ (∀ f ∈ (analyze_database cycleSchema).filter (fun f => f.type == "dependency_cycle"),
        f.severity = "high"
        ∧ (f.object = "A → B → C" ∨ f.object = "B → C → A" ∨ f.object = "C → A → B"))
    ∧ (get_database_metrics cycleSchema).connected_components = 1 := by
  refine ⟨rfl, ?_, rfl⟩
  decide

/-! # Claim C6: the dependency graph's node set -/

theorem mem_addNode_nodes (g : Digraph) (v x : String) :
    x ∈ (addNode g v).nodes ↔ x ∈ g.nodes ∨ x = v := by
  simp only [addNode]
  split
  · rename_i hcon
    constructor
    · exact Or.inl
    · rintro (h | rfl)
      · exact h
      · simpa using hcon
  · simp [List.mem_append]

theorem mem_addEdge_nodes (g : Digraph) (a b x : String) :
    x ∈ (addEdge g a b).nodes ↔ x ∈ g.nodes ∨ x = a ∨ x = b := by
  simp only [addEdge]
  split <;> simp [mem_addNode_nodes, or_assoc]

theorem mem_foldl_nodes {α : Type} (step : Digraph → α → Digraph) (Q : α → String → Prop)
    (hstep : ∀ g a x, x ∈ (step g a).nodes ↔ x ∈ g.nodes ∨ Q a x) :
    ∀ (l : List α) (g : Digraph) (x : String),
      x ∈ (l.foldl step g).nodes ↔ x ∈ g.nodes ∨ ∃ a ∈ l, Q a x := by
  intro l
  induction l with
  | nil => intro g x; simp
  | cons a as ih =>
    intro g x
    rw [List.foldl_cons, ih, hstep]
    constructor
    · rintro ((h | h) | ⟨b, hb, hq⟩)
      · exact Or.inl h
      · exact Or.inr ⟨a, List.mem_cons_self a as, h⟩
      · exact Or.inr ⟨b, List.mem_cons_of_mem _ hb, hq⟩
    · rintro (h | ⟨b, hb, hq⟩)
      · exact Or.inl (Or.inl h)
      · rcases List.mem_cons.mp hb with rfl | hb
        · exact Or.inl (Or.inr hq)
        · exact Or.inr ⟨b, hb, hq⟩

/-- Node membership across one table-scan of the heuristic dependency-edge
loop: the nodes gained are the routine/view name and the mentioned tables. -/
theorem mem_depScan_nodes (tables : List (String × TableInfo)) (nm dfn : String) :
    ∀ (g : Digraph) (x : String),
      x ∈ (tables.foldl
          (fun g t => if mentionsTable dfn t.1 then addEdge g nm t.1 else g) g).nodes
        ↔ x ∈ g.nodes ∨ ∃ t ∈ tables, mentionsTable dfn t.1 = true ∧ (x = nm ∨ x = t.1) := by
  intro g x
  refine mem_foldl_nodes _ (fun t x => mentionsTable dfn t.1 = true ∧ (x = nm ∨ x = t.1))
    ?_ tables g x
  intro g t x
  by_cases hm : mentionsTable dfn t.1 = true
  · simp [hm, mem_addEdge_nodes]
  · simp [Bool.not_eq_true] at hm
    simp [hm]

/-- Claim C6 (amended): the node set of `create_dependency_graph` consists of
every table name, every view name, every endpoint of a relationship, and
every stored-procedure or function name WHOSE DEFINITION TEXT IS NON-EMPTY —
a routine with an empty (falsy) definition is not added as a node. -/
theorem create_dependency_graph_nodes (s : Schema) (x : String) :
    x ∈ (create_dependency_graph s).nodes ↔
      (∃ ti, (x, ti) ∈ s.tables) ∨ (∃ d, (x, d) ∈ s.views)
      ∨ (∃ r ∈ s.relationships, x = r.source_table ∨ x = r.target_table)
      ∨ (∃ d, (x, d) ∈ s.stored_procedures ∧ d ≠ "")
      ∨ (∃ d, (x, d) ∈ s.functions ∧ d ≠ "") := by
  have hnode : ∀ (l : List (String × TableInfo)) (g : Digraph) (x : String),
      x ∈ (l.foldl (fun g p => addNode g p.1) g).nodes
        ↔ x ∈ g.nodes ∨ ∃ p ∈ l, x = p.1 :=
    mem_foldl_nodes _ (fun (p : String × TableInfo) (x : String) => x = p.1)
      (fun g p x => mem_addNode_nodes g p.1 x)
  have hview : ∀ (l : List (String × String)) (g : Digraph) (x : String),
      x ∈ (l.foldl (fun g p => addNode g p.1) g).nodes
        ↔ x ∈ g.nodes ∨ ∃ p ∈ l, x = p.1 :=
    mem_foldl_nodes _ (fun (p : String × String) (x : String) => x = p.1)
      (fun g p x => mem_addNode_nodes g p.1 x)
  have hrel : ∀ (l : List Relationship) (g : Digraph) (x : String),
      x ∈ (l.foldl (fun g r => addEdge g r.source_table r.target_table) g).nodes
        ↔ x ∈ g.nodes ∨ ∃ r ∈ l, x = r.source_table ∨ x = r.target_table :=
    mem_foldl_nodes _ (fun (r : Relationship) (x : String) => x = r.source_table ∨ x = r.target_table)
      (fun g r x => mem_addEdge_nodes g r.source_table r.target_table x)
  have hdepV : ∀ (l : List (String × String)) (g : Digraph) (x : String),
      x ∈ (l.foldl (fun g p =>
          if p.2 == "" then g
          else s.tables.foldl
            (fun g t => if mentionsTable p.2 t.1 then addEdge g p.1 t.1 else g) g) g).nodes
        ↔ x ∈ g.nodes ∨ ∃ p ∈ l, p.2 ≠ ""
            ∧ ∃ t ∈ s.tables, mentionsTable p.2 t.1 = true ∧ (x = p.1 ∨ x = t.1) := by
    refine mem_foldl_nodes _ (fun (p : String × String) (x : String) => p.2 ≠ ""
      ∧ ∃ t ∈ s.tables, mentionsTable p.2 t.1 = true ∧ (x = p.1 ∨ x = t.1)) ?_
    intro g p x
    by_cases he : p.2 = ""
    · simp [he]
    · rw [if_neg (by simpa using he), mem_depScan_nodes]
      simp [he]
  have hdepR : ∀ (l : List (String × String)) (g : Digraph) (x : String),
      x ∈ (l.foldl (fun g p =>
          if p.2 == "" then g
          else s.tables.foldl
            (fun g t => if mentionsTable p.2 t.1 then addEdge g p.1 t.1 else g)
            (addNode g p.1)) g).nodes
        ↔ x ∈ g.nodes ∨ ∃ p ∈ l, p.2 ≠ ""
            ∧ (x = p.1 ∨ ∃ t ∈ s.tables, mentionsTable p.2 t.1 = true ∧ (x = p.1 ∨ x = t.1)) := by
    refine mem_foldl_nodes _ (fun (p : String × String) (x : String) => p.2 ≠ ""
      ∧ (x = p.1 ∨ ∃ t ∈ s.tables, mentionsTable p.2 t.1 = true ∧ (x = p.1 ∨ x = t.1))) ?_
    intro g p x
    by_cases he : p.2 = ""
    · simp [he]
    · rw [if_neg (by simpa using he), mem_depScan_nodes, mem_addNode_nodes]
      simp [he, or_assoc]
  rw [create_dependency_graph]
  rw [hdepR, hdepR, hdepV, hrel, hview, hnode]
  simp only [Digraph.nodes, List.not_mem_nil, false_or]
  constructor
  · rintro ((((((⟨p, hp, rfl⟩ | ⟨p, hp, rfl⟩) | ⟨r, hr, hx⟩)
      | ⟨p, hp, hne, t, ht, hm, (rfl | rfl)⟩)
      | ⟨p, hp, hne, (rfl | ⟨t, ht, hm, (rfl | rfl)⟩)⟩)
      | ⟨p, hp, hne, (rfl | ⟨t, ht, hm, (rfl | rfl)⟩)⟩))
    · exact Or.inl ⟨p.2, by simpa using hp⟩
    · exact Or.inr (Or.inl ⟨p.2, by simpa using hp⟩)
    · exact Or.inr (Or.inr (Or.inl ⟨r, hr, hx⟩))
    · exact Or.inr (Or.inl ⟨p.2, by simpa using hp⟩)
    · exact Or.inl ⟨t.2, by simpa using ht⟩
    · exact Or.inr (Or.inr (Or.inr (Or.inl ⟨p.2, by simpa using hp, hne⟩)))
    · exact Or.inr (Or.inr (Or.inr (Or.inl ⟨p.2, by simpa using hp, hne⟩)))
    · exact Or.inl ⟨t.2, by simpa using ht⟩
    · exact Or.inr (Or.inr (Or.inr (Or.inr ⟨p.2, by simpa using hp, hne⟩)))
    · exact Or.inr (Or.inr (Or.inr (Or.inr ⟨p.2, by simpa using hp, hne⟩)))
    · exact Or.inl ⟨t.2, by simpa using ht⟩
  · rintro (⟨ti, hti⟩ | ⟨d, hd⟩ | ⟨r, hr, hx⟩ | ⟨d, hd, hne⟩ | ⟨d, hd, hne⟩)
    · exact Or.inl (Or.inl (Or.inl (Or.inl (Or.inl ⟨(x, ti), hti, rfl⟩))))
    · exact Or.inl (Or.inl (Or.inl (Or.inl (Or.inr ⟨(x, d), hd, rfl⟩))))
    · exact Or.inl (Or.inl (Or.inl (Or.inr ⟨r, hr, hx⟩)))
    · exact Or.inl (Or.inr ⟨(x, d), hd, hne, Or.inl rfl⟩)
    · exact Or.inr ⟨(x, d), hd, hne, Or.inl rfl⟩

/-- Claim C6 counterexample: the schema whose only object is the stored
procedure `P` with an empty definition yields a dependency graph with NO
nodes at all — `P` is not a node, although the claim says every
stored-procedure name is, including routines with empty definition text. -/
theorem create_dependency_graph_drops_empty_routine :
    ("P", "") ∈ procOnlySchema.stored_procedures
    ∧ ¬ ("P" ∈ (create_dependency_graph procOnlySchema).nodes)
    ∧ (create_dependency_graph procOnlySchema).nodes = [] :=
  ⟨by decide, by decide, rfl⟩

/-! # Claim C8: first characters of the case transforms -/

theorem string_eq_empty_of_data {s : String} (h : s.data = []) : s = "" := by
  cases s with
  | mk l =>
    have hl : l = [] := h
    subst hl
    rfl

theorem splitTokens_ne_nil : ∀ l : List Char, splitTokens l ≠ [] := by
  intro l
  induction l with
  | nil => simp [splitTokens]
  | cons c rest ih =>
    simp only [splitTokens]
    split <;> simp

theorem splitTokens_alnum : ∀ (l t : List Char), t ∈ splitTokens l →
    ∀ c ∈ t, isAsciiAlnum c = true := by
  intro l
  induction l with
  | nil =>
    intro t ht c hc
    simp only [splitTokens, List.mem_singleton] at ht
    subst ht
    simp at hc
  | cons a rest ih =>
    intro t ht c hc
    simp only [splitTokens] at ht
    by_cases ha : isAsciiAlnum a = true
    · rw [if_pos ha] at ht
      rcases List.mem_cons.mp ht with rfl | htail
      · rcases List.mem_cons.mp hc with rfl | hc2
        · exact ha
        · have hh : (splitTokens rest).headD [] ∈ splitTokens rest := by
            cases hsp : splitTokens rest with
            | nil => exact absurd hsp (splitTokens_ne_nil rest)
            | cons t0 ts => simp
          exact ih _ hh c hc2
      · exact ih t (List.mem_of_mem_tail htail) c hc
    · rw [if_neg ha] at ht
      rcases List.mem_cons.mp ht with rfl | htail
      · simp at hc
      · exact ih t htail c hc

theorem upperAscii_good (c : Char) (h : isAsciiAlnum c = true) :
    (isUpperAlpha (toUpperAscii c) || isDigitChar (toUpperAscii c)) = true := by
  by_cases hl : isLowerAlpha c = true
  · obtain ⟨h1, h2⟩ : 97 ≤ c.toNat ∧ c.toNat ≤ 122 := by
      simpa [isLowerAlpha, Bool.and_eq_true, decide_eq_true_eq] using hl
    simp only [toUpperAscii, hl, if_true]
    obtain ⟨n, hn⟩ : ∃ n, n = c.toNat := ⟨_, rfl⟩
    rw [← hn] at h1 h2 ⊢
    interval_cases n <;> decide
  · rw [Bool.not_eq_true] at hl
    simp only [toUpperAscii, hl, Bool.false_eq_true, if_false]
    simp only [isAsciiAlnum, hl, Bool.false_or] at h
    exact h

theorem lowerAscii_good (c : Char) (h : (isUpperAlpha c || isDigitChar c) = true) :
    (isLowerAlpha (toLowerAscii c) || isDigitChar (toLowerAscii c)) = true := by
  by_cases hu : isUpperAlpha c = true
  · obtain ⟨h1, h2⟩ : 65 ≤ c.toNat ∧ c.toNat ≤ 90 := by
      simpa [isUpperAlpha, Bool.and_eq_true, decide_eq_true_eq] using hu
    simp only [toLowerAscii, hu, if_true]
    obtain ⟨n, hn⟩ : ∃ n, n = c.toNat := ⟨_, rfl⟩
    rw [← hn] at h1 h2 ⊢
    interval_cases n <;> decide
  · rw [Bool.not_eq_true] at hu
    simp only [toLowerAscii, hu, Bool.false_eq_true, if_false]
    simp only [hu, Bool.false_or] at h
    simp [h]

theorem pascal_shape (s : String) :
    (pascal_case s).data = [] ∨
      ∃ c t, (pascal_case s).data = c :: t ∧ (isUpperAlpha c || isDigitChar c) = true := by
  cases hws : (splitTokens s.data).filter (fun t => !t.isEmpty) with
  | nil =>
    left
    simp [pascal_case, hws]
  | cons w ws =>
    have hwmem : w ∈ (splitTokens s.data).filter (fun t => !t.isEmpty) := by
      rw [hws]
      exact List.mem_cons_self w ws
    have hw := List.mem_filter.mp hwmem
    cases w with
    | nil => simp at hw
    | cons c t =>
      right
      refine ⟨toUpperAscii c, t.map toLowerAscii ++ (ws.map capitalizeTok).flatten, ?_, ?_⟩
      · simp [pascal_case, hws, capitalizeTok]
      · exact upperAscii_good c
          (splitTokens_alnum s.data (c :: t) hw.1 c (List.mem_cons_self c t))

/-- Claim C8 (amended): the first character of `pascal_case s` is an
uppercase ASCII letter OR A DECIMAL DIGIT unless the result is empty, and the
first character of `camel_case s` is a lowercase ASCII letter or a decimal
digit unless the result is empty — a name whose first word starts with a
digit keeps that digit in first position. -/
theorem case_transform_first_char (s : String) :
    (pascal_case s = ""
      ∨ (isUpperAlpha (headChar (pascal_case s))
          || isDigitChar (headChar (pascal_case s))) = true)
    ∧ (camel_case s = ""
      ∨ (isLowerAlpha (headChar (camel_case s))
          || isDigitChar (headChar (camel_case s))) = true) := by
  rcases pascal_shape s with h | ⟨c, t, h, hgood⟩
  · constructor
    · exact Or.inl (string_eq_empty_of_data h)
    · left
      have hc : camel_case s = pascal_case s := by
        simp only [camel_case, h]
      rw [hc]
      exact string_eq_empty_of_data h
  · constructor
    · right
      have hh : headChar (pascal_case s) = c := by simp [headChar, h]
      rw [hh]
      exact hgood
    · right
      have hcam : camel_case s = ⟨toLowerAscii c :: t⟩ := by
        simp only [camel_case, h]
      rw [hcam]
      have hh : headChar ⟨toLowerAscii c :: t⟩ = toLowerAscii c := rfl
      rw [hh]
      exact lowerAscii_good c hgood

/-- Claim C8 counterexample: `"9abc"` transforms to `"9abc"` under both
casings — non-empty, and its first character `'9'` is neither an uppercase
nor a lowercase letter. -/
theorem case_transform_digit_counterexample :
    pascal_case "9abc" = "9abc"
    ∧ pascal_case "9abc" ≠ ""
    ∧ isUpperAlpha (headChar (pascal_case "9abc")) = false
    ∧ camel_case "9abc" = "9abc"
    ∧ isLowerAlpha (headChar (camel_case "9abc")) = false := by
  decide

/-! # Claim C10: diagram generation and empty relationship column lists -/

theorem relationshipUmlEdges_total (it : Bool) : ∀ rels : List Relationship,
    (∀ r ∈ rels, r.source_columns ≠ [] ∧ r.target_columns ≠ []) →
    ∃ es, relationshipUmlEdges it rels = .ok es := by
  intro rels
  induction rels with
  | nil => intro _; exact ⟨[], rfl⟩
  | cons r rest ih =>
    intro h
    obtain ⟨es, hes⟩ := ih (fun q hq => h q (List.mem_cons_of_mem _ hq))
    obtain ⟨hs, ht⟩ := h r (List.mem_cons_self r rest)
    cases hb : it with
    | false =>
      rw [hb] at hes
      refine ⟨es, ?_⟩
      simpa [relationshipUmlEdges] using hes
    | true =>
      cases hsc : r.source_columns with
      | nil => exact absurd hsc hs
      | cons sc scs =>
        cases htc : r.target_columns with
        | nil => exact absurd htc ht
        | cons tc tcs =>
          rw [hb] at hes
          refine ⟨{ src := r.source_table, dst := r.target_table,
                    label := Option.some (sc ++ " → " ++ tc),
                    color := fkStyle.1, style := fkStyle.2.1,
                    arrowhead := fkStyle.2.2 } :: es, ?_⟩
          simp [relationshipUmlEdges, hsc, htc, hes]

set_option maxRecDepth 100000 in
/-- Claim C10: a relationship with an empty source or target column list
makes `generate_database_uml` (with tables included) fail with an IndexError
while building the edge label from the first column pair, whereas
`generate_dbcontext_class` skips such a relationship (its output equals the
output on the schema without it); and diagram generation succeeds on every
schema all of whose relationships have non-empty source and target column
lists, under any flag combination. -/
theorem generate_database_uml_partiality :
    generate_database_uml umlBadSchema true true false false = .error "IndexError"
    ∧ generate_dbcontext_class umlBadSchema "YourDbContext"
        = generate_dbcontext_class umlBadSchemaNoRel "YourDbContext"
    ∧ ∀ (s : Schema) (it iv ip ifl : Bool),
        (∀ r ∈ s.relationships, r.source_columns ≠ [] ∧ r.target_columns ≠ []) →
        ∃ g, generate_database_uml s it iv ip ifl = .ok g := by
  refine ⟨rfl, by decide, ?_⟩
  intro s it iv ip ifl h
  obtain ⟨es, hes⟩ := relationshipUmlEdges_total it s.relationships h
  cases hok : generate_database_uml s it iv ip ifl with
  | error e => simp [generate_database_uml, hes] at hok
  | ok g => exact ⟨g, rfl⟩

set_option maxRecDepth 100000 in
/-- Instance of the C10 totality statement at the three-table cycle schema
(every relationship there has one source and one target column). -/
theorem generate_database_uml_partiality_witness :
    ∃ g, generate_database_uml cycleSchema true true false false = .ok g :=
  generate_database_uml_partiality.2.2 cycleSchema true true false false (by decide)

end DTA
